import Mathlib

/-!
Verification development for the gninja simulation core (src/main.go).

The Go source is shallowly embedded: every float64 quantity is modelled as a
rational number, `time.Time` and `time.Duration` values as rationals measured
in seconds (the zero `time.Time` is the rational 0), and the transcendental
library calls `math.Sqrt`, `math.Cos`, `math.Sin` are abstracted as explicit
function parameters (`sqrtF`, `cosF`, `sinF`) since their float results are
not rational; no proved statement depends on the values those functions
return.  Calls to the random source are abstracted as explicitly supplied
rolls: a field named `...Roll` stands for one `rand.Float64()` draw and an
`...Ms` natural number for one `rand.Intn` draw.  A call to
`emitBloodFromParticle` is recorded as one `BloodEmit` event carrying the
intensity and the impact flag the Go call receives.
-/

namespace GNinja

/-- Truncation toward zero, the semantics of Go's `int(x)` and
`time.Duration(x)` conversions on a nonnegative-or-negative float. -/
def ratTrunc (q : ℚ) : ℤ :=
  if q < 0 then -(Int.floor (-q)) else Int.floor q

/-- Two-dimensional vector (`Vec2` in main.go). -/
structure Vec2 where
  x : ℚ
  y : ℚ
deriving DecidableEq, Repr

/-- Projectile state (`Projectile` in main.go). -/
structure Projectile where
  pos : Vec2
  prevPos : Vec2
  dir : ℤ
  active : Bool
  frame : ℤ
  isEnemy : Bool
deriving DecidableEq, Repr

/-- Platform rectangle (`Platform` in main.go). -/
structure Platform where
  x : ℚ
  y : ℚ
  width : ℚ
  height : ℚ
deriving DecidableEq, Repr

/-- Opponent state (`Enemy` in main.go). -/
structure Enemy where
  pos : Vec2
  vel : Vec2
  facing : ℤ
  width : ℤ
  height : ℤ
  active : Bool
  canShoot : Bool
  lastShot : ℚ
  nextShotDelay : ℚ
  onGround : Bool
  jumpCooldown : ℚ
deriving DecidableEq, Repr

/-- Debris fragment (`DeathParticle` in main.go). -/
structure DeathParticle where
  pos : Vec2
  vel : Vec2
  char : Char
  onGround : Bool
  bounces : ℤ
  groundTime : ℚ
  active : Bool
  enemyID : ℤ
  isRed : Bool
  angularVel : ℚ
  angle : ℚ
  fallsThrough : Bool
  isHead : Bool
  isRolling : Bool
  rollDistance : ℚ
  rollSpeed : ℚ
  bouncedFromPlatform : Bool
  wasOnPlatform : Bool
  hasSplattedFromPlatform : Bool
  lastBloodEmit : ℚ
  hasHitGround : Bool
deriving DecidableEq, Repr

/-- Blood spray particle (`BloodParticle` in main.go). -/
structure BloodParticle where
  pos : Vec2
  vel : Vec2
  char : Char
  active : Bool
  lifetime : ℚ
  enemyID : ℤ
deriving DecidableEq, Repr

/-- Mobile decapitated body (`Corpse` in main.go). -/
structure Corpse where
  pos : Vec2
  vel : Vec2
  facing : ℤ
  onGround : Bool
  active : Bool
  enemyID : ℤ
  endTime : ℚ
  moveDir : ℤ
  lastDirChange : ℚ
  dirDuration : ℚ
  lastBloodEmit : ℚ
  wasOnPlatform : Bool
deriving DecidableEq, Repr

/-- One call to `emitBloodFromParticle`: the intensity argument, the impact
flag, and the source id of the particle passed in. -/
structure BloodEmit where
  intensity : ℚ
  impact : Bool
  enemyID : ℤ
deriving DecidableEq, Repr

/-! ## Projectile system (`updateProjectiles`) -/

/-- Per-projectile body of `updateProjectiles`: record the previous position,
advance by `speed*dt*dir`, bump the frame counter, deactivate off screen.
Inactive projectiles are skipped by the Go loop. -/
def stepProjectile (width : ℤ) (dt : ℚ) (p : Projectile) : Projectile :=
  if p.active then
    let speed : ℚ := if p.isEnemy then 80 else 200
    let p1 : Projectile :=
      { p with prevPos := p.pos,
               pos := ⟨p.pos.x + (p.dir : ℚ) * speed * dt, p.pos.y⟩,
               frame := p.frame + 1 }
    if p1.pos.x < 0 ∨ p1.pos.x > (width : ℚ) then { p1 with active := false } else p1
  else p

/-- The whole of `updateProjectiles`: on game over the projectile list is
replaced by an empty one and the function returns; otherwise every active
projectile is stepped and the inactive ones are packed away. -/
def updateProjectiles (gameOver : Bool) (width : ℤ) (dt : ℚ)
    (ps : List Projectile) : List Projectile :=
  if gameOver then []
  else (ps.map (stepProjectile width dt)).filter (·.active)

/-! ## Opponents under game over (`updateEnemies`, game-over branch) -/

/-- Platform landing scan for an enemy, from the platform loop inside
`updateEnemies`: the first platform the enemy overlaps while descending from
above receives the landing; overlaps that are not landings do not stop the
scan. Returns the updated enemy and whether a landing happened. -/
def enemyPlatformScan (e : Enemy) : List Platform → Enemy × Bool
  | [] => (e, false)
  | pl :: rest =>
    if e.pos.x < pl.x + pl.width ∧ e.pos.x + (e.width : ℚ) > pl.x ∧
        e.pos.y < pl.y + pl.height ∧ e.pos.y + (e.height : ℚ) > pl.y then
      if e.vel.y > 0 ∧ e.pos.y < pl.y then
        ({ e with pos := ⟨e.pos.x, pl.y - (e.height : ℚ)⟩,
                  vel := ⟨e.vel.x, 0⟩, onGround := true }, true)
      else enemyPlatformScan e rest
    else enemyPlatformScan e rest

/-- The gravity, vertical integration, platform/ground resolution and
off-screen pruning shared by both regimes of the per-enemy body. -/
def enemyVerticalPass (plats : List Platform) (width gGroundY : ℤ) (dt : ℚ)
    (e1 : Enemy) : Enemy :=
  let groundY : ℚ := ((gGroundY - 3 : ℤ) : ℚ)
  let e2 : Enemy :=
    if ¬e1.onGround then { e1 with vel := ⟨e1.vel.x, e1.vel.y + 300 * dt⟩ } else e1
  let e3 : Enemy := { e2 with pos := ⟨e2.pos.x, e2.pos.y + e2.vel.y * dt⟩ }
  let scan := enemyPlatformScan e3 plats
  let e5 : Enemy :=
    if scan.2 then scan.1
    else if scan.1.pos.y ≥ groundY then
      let e4 : Enemy := { scan.1 with pos := ⟨scan.1.pos.x, groundY⟩ }
      if e4.vel.y > 0 then { e4 with vel := ⟨e4.vel.x, 0⟩, onGround := true } else e4
    else { scan.1 with onGround := false }
  if e5.pos.x < -4 ∨ e5.pos.x > (width : ℚ) then { e5 with active := false } else e5

/-- Per-enemy body of `updateEnemies` in the game-over regime: the enemy
walks toward the nearest screen edge (away from the screen centre), then the
shared gravity/platform/ground/off-screen code runs.  The AI, shooting and
jumping blocks are statically dead when `gameOver` holds and are omitted. -/
def stepEnemyGameOver (plats : List Platform) (width gGroundY : ℤ) (dt : ℚ)
    (e : Enemy) : Enemy :=
  let speed : ℚ := 20
  let screenCenter : ℚ := (width : ℚ) / 2
  let e1 : Enemy :=
    if e.pos.x - screenCenter > 0 then
      { e with facing := 1, pos := ⟨e.pos.x + speed * dt, e.pos.y⟩ }
    else
      { e with facing := -1, pos := ⟨e.pos.x - speed * dt, e.pos.y⟩ }
  enemyVerticalPass plats width gGroundY dt e1

/-- List-level `updateEnemies` in the game-over regime: step each active
enemy, pack away inactive ones, and skip the spawn block (the function
returns before it when `gameOver` holds). -/
def updateEnemiesGameOver (plats : List Platform) (width gGroundY : ℤ) (dt : ℚ)
    (es : List Enemy) : List Enemy :=
  (es.map (fun e => if e.active then stepEnemyGameOver plats width gGroundY dt e else e)).filter
    (·.active)

/-! ## Enemy spawning (`updateEnemies`, spawn block) -/

/-- The enemy constructed by the spawn block of `updateEnemies`: every other
spawn can shoot (`canShoot := counter % 2 == 1`), and one `rand.Float64()`
roll picks the side. -/
def spawnEnemy (width gGroundY : ℤ) (counter : ℕ) (sideRoll : ℚ) : Enemy :=
  let canShoot : Bool := counter % 2 == 1
  if sideRoll < 1/2 then
    { pos := ⟨-4, ((gGroundY - 3 : ℤ) : ℚ)⟩, vel := ⟨0, 0⟩, facing := 1,
      width := 4, height := 3, active := true, canShoot := canShoot,
      lastShot := 0, nextShotDelay := 0, onGround := true, jumpCooldown := 0 }
  else
    { pos := ⟨(width : ℚ), ((gGroundY - 3 : ℤ) : ℚ)⟩, vel := ⟨0, 0⟩, facing := -1,
      width := 4, height := 3, active := true, canShoot := canShoot,
      lastShot := 0, nextShotDelay := 0, onGround := true, jumpCooldown := 0 }

/-- A run of consecutive in-game spawns: the counter is incremented once per
spawned enemy, exactly as `g.enemySpawnCounter++` does. -/
def spawnRun (width gGroundY : ℤ) : ℕ → List ℚ → List Enemy
  | _, [] => []
  | c, r :: rs => spawnEnemy width gGroundY c r :: spawnRun width gGroundY (c + 1) rs

/-! ## Fragment physics (`updateDeathParticles`, per-particle body)

The per-particle body is split into stages named after the comment blocks of
the Go function; `stepDeathParticle` chains them in source order. -/

/-- Continuous blood emission from airborne fragments (`updateDeathParticles`,
"Emit blood particles continuously from pieces in the air"). -/
def dpAirEmit (sqrtF : ℚ → ℚ) (now : ℚ) (p : DeathParticle) :
    DeathParticle × List BloodEmit :=
  if (¬p.onGround) ∧ (|p.vel.x| > 1/10 ∨ |p.vel.y| > 1/10) then
    let speed := sqrtF (p.vel.x * p.vel.x + p.vel.y * p.vel.y)
    let ms : ℤ := 150 - ratTrunc (speed * (4/5))
    let ms : ℤ := if ms < 30 then 30 else ms
    if now - p.lastBloodEmit ≥ (ms : ℚ) / 1000 then
      ({ p with lastBloodEmit := now }, [⟨min (speed / 100) (7/10), false, p.enemyID⟩])
    else (p, [])
  else (p, [])

/-- Gravity (skipped only for a settled fragment with zero vertical velocity)
followed by position integration. -/
def dpIntegrate (dt : ℚ) (p : DeathParticle) : DeathParticle :=
  let p1 : DeathParticle :=
    if p.onGround ∧ p.vel.y = 0 then p
    else { p with vel := ⟨p.vel.x, p.vel.y + 300 * dt⟩ }
  { p1 with pos := ⟨p1.pos.x + p1.vel.x * dt, p1.pos.y + p1.vel.y * dt⟩ }

/-- The platform collision loop of the fragment body: the first platform
whose tolerance band contains the fragment ends the loop; a descending
fragment above the top bounces (capped at 2, vertical velocity damped by 0.4,
horizontal friction 0.8, impact emission scaled by post-bounce speed) or
settles, and a fragment already at rest is re-clamped to the top. -/
def dpPlatformScan (now : ℚ) (p : DeathParticle) :
    List Platform → DeathParticle × Bool × List BloodEmit
  | [] => (p, false, [])
  | pl :: rest =>
    if p.pos.x < pl.x + pl.width ∧ p.pos.x + 1 > pl.x ∧
        p.pos.y + 1 ≥ pl.y ∧ p.pos.y + 1 ≤ pl.y + pl.height + 1 then
      if p.vel.y > 0 ∧ p.pos.y < pl.y then
        let pA : DeathParticle := { p with pos := ⟨p.pos.x, pl.y - 1⟩ }
        if pA.bounces < 2 ∧ pA.vel.y > 20 then
          let pB : DeathParticle :=
            { pA with bounces := pA.bounces + 1,
                      vel := ⟨pA.vel.x * (4/5), -pA.vel.y * (2/5)⟩,
                      onGround := false, bouncedFromPlatform := true }
          (pB, true, [⟨min (|pB.vel.y| / 60) 1, true, pB.enemyID⟩])
        else
          let pB : DeathParticle := { pA with vel := ⟨pA.vel.x, 0⟩ }
          let pC : DeathParticle :=
            if ¬pB.onGround then
              { pB with onGround := true, groundTime := now,
                        vel := ⟨0, pB.vel.y⟩, wasOnPlatform := true }
            else pB
          (pC, true, [])
      else if p.vel.y = 0 ∧ p.pos.y ≤ pl.y then
        let pA : DeathParticle := { p with pos := ⟨p.pos.x, pl.y - 1⟩ }
        let pB : DeathParticle :=
          if ¬pA.onGround then
            { pA with onGround := true,
                      groundTime := if pA.groundTime = 0 then now else pA.groundTime,
                      wasOnPlatform := true }
          else pA
        (pB, true, [])
      else (p, true, [])
    else dpPlatformScan now p rest

/-- Expiry check for fragments settled on a platform ("Check if particles on
platforms should disappear"): player fragments (id 0) and rolling heads are
exempt from the 3-second timer. -/
def dpPlatformExpiry (now : ℚ) (onPlatform : Bool) (p : DeathParticle) : DeathParticle :=
  if onPlatform ∧ p.onGround ∧ p.vel.y = 0 then
    let rolling := p.isHead ∧ p.isRolling ∧ p.rollDistance > 0
    let p1 : DeathParticle := if ¬rolling then { p with vel := ⟨0, p.vel.y⟩ } else p
    if p1.enemyID ≠ 0 ∧ ¬rolling ∧ now - p1.groundTime ≥ 3 then
      { p1 with active := false }
    else p1
  else p

/-- The ground settle assignments ("First time settling"): on first settling
the fragment becomes grounded, its settle timestamp is recorded and its
horizontal velocity becomes the stored roll speed (rolling heads) or zero. -/
def dpGroundSettle (now : ℚ) (q : DeathParticle) : DeathParticle :=
  let p5 : DeathParticle := { q with onGround := true, groundTime := now }
  if p5.isHead ∧ p5.isRolling ∧ p5.rollDistance > 0 then
    { p5 with vel := ⟨p5.rollSpeed, p5.vel.y⟩ }
  else { p5 with vel := ⟨0, p5.vel.y⟩ }

/-- The tail of the "already settled on ground" branch: a non-rolling
fragment has its horizontal velocity zeroed and, when it belongs to an
opponent and 3 seconds have passed since settling, is deactivated.  (In the
Go source the roll guard is evaluated twice on unchanged flags; the two
formulations agree.) -/
def dpGroundIdle (now : ℚ) (q : DeathParticle) : DeathParticle :=
  if q.isHead ∧ q.isRolling ∧ q.rollDistance > 0 then q
  else
    let p4 : DeathParticle := { q with vel := ⟨0, q.vel.y⟩ }
    if p4.enemyID ≠ 0 ∧ now - p4.groundTime ≥ 3 then { p4 with active := false } else p4

/-- The bounce-or-settle part of the normal ground branch, applied to the
fragment after clamping and the first-impact emission (`em2`). -/
def dpGroundRest (now : ℚ) (p2 : DeathParticle) (em2 : List BloodEmit) :
    DeathParticle × List BloodEmit :=
  if p2.vel.y > 0 then
    if p2.bounces < 2 ∧ p2.vel.y > 20 then
      let wasBouncing := p2.bounces > 0
      let p3 : DeathParticle :=
        { p2 with bounces := p2.bounces + 1,
                  vel := ⟨p2.vel.x * (4/5), -p2.vel.y * (2/5)⟩,
                  onGround := false }
      if p3.bouncedFromPlatform then
        ({ p3 with bouncedFromPlatform := false },
         em2 ++ [⟨min (|p3.vel.y| / 60) 1, true, p3.enemyID⟩])
      else if wasBouncing ∨ p3.bounces = 1 then
        (p3, em2 ++ [⟨min (|p3.vel.y| / 60) 1, true, p3.enemyID⟩])
      else (p3, em2)
    else
      let p3 : DeathParticle := { p2 with vel := ⟨p2.vel.x, 0⟩ }
      if ¬p3.onGround then
        if p3.bouncedFromPlatform then
          (dpGroundSettle now { p3 with bouncedFromPlatform := false },
           em2 ++ [⟨min (|p3.vel.y| / 60) 1, true, p3.enemyID⟩])
        else (dpGroundSettle now p3, em2)
      else
        if ¬(p3.isHead ∧ p3.isRolling ∧ p3.rollDistance > 0) then
          ({ p3 with vel := ⟨0, p3.vel.y⟩ }, em2)
        else (p3, em2)
  else if p2.vel.y = 0 then
    if ¬p2.onGround then
      let pA : DeathParticle := { p2 with onGround := true, groundTime := now }
      if pA.isHead ∧ pA.isRolling ∧ pA.rollDistance > 0 then
        (dpGroundIdle now { pA with vel := ⟨pA.rollSpeed, pA.vel.y⟩ }, em2)
      else (dpGroundIdle now pA, em2)
    else (dpGroundIdle now p2, em2)
  else (p2, em2)

/-- Ground collision block of the fragment body, entered only when no
platform handled the fragment and the fragment is at or below the fragment
ground line (`g.groundY - 1`). A fall-through fragment on its first downward
crossing emits one impact burst and has its bounce counter set to the
sentinel 999; a fall-through fragment already marked 999 skips the whole
normal branch; otherwise the fragment is clamped and bounces or settles. -/
def dpGroundPass (now groundY : ℚ) (onPlatform : Bool) (p : DeathParticle) :
    DeathParticle × List BloodEmit :=
  if (¬onPlatform) ∧ p.pos.y ≥ groundY then
    if p.fallsThrough ∧ p.vel.y > 0 ∧ p.bounces = 0 then
      ({ p with bounces := 999 }, [⟨min (|p.vel.y| / 60) 1, true, p.enemyID⟩])
    else if ¬p.fallsThrough ∨ p.bounces < 999 then
      let p1 : DeathParticle := { p with pos := ⟨p.pos.x, groundY⟩ }
      if (¬p1.hasHitGround) ∧ p1.vel.y > 0 then
        dpGroundRest now { p1 with hasHitGround := true, lastBloodEmit := now }
          [⟨min (|p1.vel.y| / 60) 1, true, p1.enemyID⟩]
      else dpGroundRest now p1 []
    else (p, [])
  else (p, [])

/-- Deactivation of fragments that fell below the screen. -/
def dpOffBottom (height : ℤ) (p : DeathParticle) : DeathParticle :=
  if p.pos.y > (height : ℚ) then { p with active := false } else p

/-- Friction and the stop check at the end of the rolling branch. -/
def dpRollTail (now : ℚ) (q : DeathParticle) : DeathParticle :=
  let p3 : DeathParticle := { q with vel := ⟨q.vel.x * (19/20), q.vel.y⟩ }
  if p3.rollDistance ≤ 0 ∨ |p3.vel.x| < 1/2 then
    let pA : DeathParticle :=
      { p3 with vel := ⟨0, p3.vel.y⟩, isRolling := false, rollDistance := 0 }
    if pA.enemyID ≠ 0 then { pA with groundTime := now } else pA
  else p3

/-- Rolling-head handling ("Handle rolling for head pieces on ground") and
the final settled clean-up branch.  The emission guard combines the Go
speed test and timer test into one condition; the clamped emission interval
is written with `max`. -/
def dpRollPass (now dt : ℚ) (p : DeathParticle) : DeathParticle × List BloodEmit :=
  if p.onGround ∧ p.vel.y = 0 ∧ p.isHead ∧ p.isRolling ∧ p.rollDistance > 0 then
    let p1 : DeathParticle := { p with rollDistance := p.rollDistance - |p.vel.x| * dt }
    let currentSpeed := |p1.vel.x|
    if currentSpeed > 1/10 ∧
        now - p1.lastBloodEmit ≥ ((max (200 - ratTrunc (currentSpeed * (3/2))) 50 : ℤ) : ℚ) / 1000 then
      (dpRollTail now { p1 with lastBloodEmit := now },
       [⟨min (currentSpeed / 60) (3/5), false, p1.enemyID⟩])
    else (dpRollTail now p1, [])
  else if p.onGround ∧ p.vel.y = 0 ∧ ¬(p.isHead ∧ p.isRolling ∧ p.rollDistance > 0) then
    ({ p with vel := ⟨0, 0⟩ }, [])
  else (p, [])

/-- Deactivation of fragments far outside the horizontal bounds. -/
def dpOffSides (width : ℤ) (p : DeathParticle) : DeathParticle :=
  if p.pos.x < -10 ∨ p.pos.x > (width : ℚ) + 10 then { p with active := false } else p

/-- The whole per-particle body of `updateDeathParticles`, in source order.
The fragment ground line is `g.groundY - 1` ("Rest one row above ground"). -/
def stepDeathParticle (sqrtF : ℚ → ℚ) (plats : List Platform)
    (width height gGroundY : ℤ) (now dt : ℚ) (p : DeathParticle) :
    DeathParticle × List BloodEmit :=
  let groundY : ℚ := ((gGroundY - 1 : ℤ) : ℚ)
  let a := dpAirEmit sqrtF now p
  let b := dpPlatformScan now (dpIntegrate dt a.1) plats
  let c := dpGroundPass now groundY b.2.1 (dpPlatformExpiry now b.2.1 b.1)
  let d := dpRollPass now dt (dpOffBottom height c.1)
  (dpOffSides width d.1, a.2 ++ b.2.2 ++ c.2 ++ d.2)

/-- List-level `updateDeathParticles`, fragments only (the corpse update the
Go function performs first is modelled by `updateCorpses`): on game over all
fragments of defeated opponents (id ≠ 0) are removed first, then each active
fragment is stepped, then inactive ones are packed away. -/
def updateDeathParticles (sqrtF : ℚ → ℚ) (plats : List Platform)
    (width height gGroundY : ℤ) (now dt : ℚ) (gameOver : Bool)
    (dps : List DeathParticle) : List DeathParticle × List BloodEmit :=
  let dps1 := if gameOver then dps.filter (fun p => p.enemyID == 0) else dps
  let stepped := dps1.map (fun p =>
    if p.active then stepDeathParticle sqrtF plats width height gGroundY now dt p
    else (p, []))
  ((stepped.map Prod.fst).filter (·.active), (stepped.map Prod.snd).flatten)

/-! ## Fragment invariants (claim C2) -/

/-- Invariant of a fragment: the bounce counter is at most 2 unless it holds
the fall-through sentinel 999, and a settled fragment has zero vertical
velocity. -/
def FragInv (p : DeathParticle) : Prop :=
  (p.bounces ≤ 2 ∨ p.bounces = 999) ∧ (p.onGround → p.vel.y = 0)

/-- Relation between a fragment and its value after one stage: the invariant
still holds, the sentinel can only appear on a fall-through fragment, and the
fall-through flag is never rewritten. -/
def FragStep (p q : DeathParticle) : Prop :=
  FragInv q ∧ (q.bounces = 999 → p.bounces = 999 ∨ p.fallsThrough) ∧
    q.fallsThrough = p.fallsThrough

/-- Sample fragment used in concrete evaluations: a fall-through opponent
fragment descending toward the ground of an 80-by-24 arena. -/
def fallFrag : DeathParticle :=
  { pos := ⟨40, 21⟩, vel := ⟨0, 30⟩, char := 'O', onGround := false, bounces := 0,
    groundTime := 0, active := true, enemyID := 1, isRed := false, angularVel := 0,
    angle := 0, fallsThrough := true, isHead := false, isRolling := false,
    rollDistance := 0, rollSpeed := 0, bouncedFromPlatform := false,
    wasOnPlatform := false, hasSplattedFromPlatform := false, lastBloodEmit := 0,
    hasHitGround := false }

/-- First update tick of `fallFrag` (dt one thirtieth of a second, no
platforms, width 80, height 24, ground row 23). -/
def fallFragTick1 : DeathParticle × List BloodEmit :=
  stepDeathParticle (fun _ => 0) [] 80 24 23 0 (1/30) fallFrag

/-- Second update tick of the same fragment. -/
def fallFragTick2 : DeathParticle × List BloodEmit :=
  stepDeathParticle (fun _ => 0) [] 80 24 23 (1/30) (1/30) fallFragTick1.1

/-! ## Stain registry (`markGroundRed`, `markPlatformRed`,
`checkAndClearRedTiles`)

The Go maps `redGroundTiles` and `redPlatformTiles` are modelled as
association lists of (key, enemy id) pairs; `tileInsert` is the map
assignment `m[k] = v`. -/

/-- Map assignment on a stain map. -/
def tileInsert (k v : ℤ) (m : List (ℤ × ℤ)) : List (ℤ × ℤ) :=
  (k, v) :: m.filter (fun kv => decide (kv.1 ≠ k))

/-- `isTileUnderPlatform`: whether ground tile `x` lies under some platform. -/
def isTileUnderPlatform (plats : List Platform) (x : ℤ) : Bool :=
  plats.any (fun pl => decide (ratTrunc pl.x ≤ x ∧ x < ratTrunc (pl.x + pl.width)))

/-- `markGroundRed`: records a ground stain unless the tile is out of range
or the marking particle came from a platform directly above a platform
tile. -/
def markGroundRed (width : ℤ) (plats : List Platform) (tileX enemyID : ℤ)
    (wasOnPlatform : Bool) (m : List (ℤ × ℤ)) : List (ℤ × ℤ) :=
  if 0 ≤ tileX ∧ tileX < width then
    if ¬wasOnPlatform ∨ ¬isTileUnderPlatform plats tileX then tileInsert tileX enemyID m
    else m
  else m

/-- `markPlatformRed`: records a platform stain under the composite key
`platformIndex * 10000 + tileX`. -/
def markPlatformRed (platformIndex tileX enemyID : ℤ) (m : List (ℤ × ℤ)) :
    List (ℤ × ℤ) :=
  tileInsert (platformIndex * 10000 + tileX) enemyID m

/-- The set of source ids that still own an active fragment or an active
blood particle, as collected by `checkAndClearRedTiles`. -/
def activeEnemyIDs (dps : List DeathParticle) (bps : List BloodParticle) : List ℤ :=
  (dps.filter (·.active)).map (·.enemyID) ++ (bps.filter (·.active)).map (·.enemyID)

/-- `checkAndClearRedTiles`: every stain entry whose source id is not in the
active set is deleted from both maps. -/
def checkAndClearRedTiles (dps : List DeathParticle) (bps : List BloodParticle)
    (ground plat : List (ℤ × ℤ)) : List (ℤ × ℤ) × List (ℤ × ℤ) :=
  let ids := activeEnemyIDs dps bps
  (ground.filter (fun kv => decide (kv.2 ∈ ids)),
   plat.filter (fun kv => decide (kv.2 ∈ ids)))

/-! ## Blood particles (`updateBloodParticles`) -/

/-- The platform loop of the blood-particle body: index of the first
platform whose box overlaps the 1x1 particle box. -/
def bpFindPlatform (p : BloodParticle) : List (ℕ × Platform) → Option ℕ
  | [] => none
  | (i, pl) :: rest =>
    if p.pos.x < pl.x + pl.width ∧ p.pos.x + 1 > pl.x ∧
        p.pos.y < pl.y + pl.height ∧ p.pos.y + 1 > pl.y then some i
    else bpFindPlatform p rest

/-- Lifetime decrement and the off-screen checks at the end of the
blood-particle body. -/
def bpFinish (width height : ℤ) (dt : ℚ) (p : BloodParticle) : BloodParticle :=
  let p3 : BloodParticle := { p with lifetime := p.lifetime - dt }
  let p4 : BloodParticle := if p3.lifetime ≤ 0 then { p3 with active := false } else p3
  if p4.pos.x < -10 ∨ p4.pos.x > (width : ℚ) + 10 ∨ p4.pos.y > (height : ℚ) then
    { p4 with active := false }
  else p4

/-- Gravity and position integration of the blood-particle body. -/
def bpIntegrate (dt : ℚ) (p : BloodParticle) : BloodParticle :=
  let p1 : BloodParticle := { p with vel := ⟨p.vel.x, p.vel.y + 300 * dt⟩ }
  { p1 with pos := ⟨p1.pos.x + p1.vel.x * dt, p1.pos.y + p1.vel.y * dt⟩ }

/-- The per-particle body of `updateBloodParticles`: gravity, integration,
platform contact (stain and deactivate), ground contact (stain only — the
particle is not deactivated there), lifetime expiry and viewport exit.
Returns the particle and the two updated stain maps. -/
def stepBloodParticle (plats : List Platform) (width height gGroundY : ℤ) (dt : ℚ)
    (p : BloodParticle) (ground plat : List (ℤ × ℤ)) :
    BloodParticle × List (ℤ × ℤ) × List (ℤ × ℤ) :=
  let p2 : BloodParticle := bpIntegrate dt p
  match bpFindPlatform p2 plats.enum with
  | some i =>
    let tileX := ratTrunc p2.pos.x
    let plat1 := if 0 ≤ tileX ∧ tileX < width then
        markPlatformRed (i : ℤ) tileX p2.enemyID plat
      else plat
    (bpFinish width height dt { p2 with active := false }, ground, plat1)
  | none =>
    let tileX := ratTrunc p2.pos.x
    let ground1 := if p2.pos.y ≥ (gGroundY : ℚ) ∧ 0 ≤ tileX ∧ tileX < width then
        markGroundRed width plats tileX p2.enemyID false ground
      else ground
    (bpFinish width height dt p2, ground1, plat)

/-! ## Fragment and corpse spawning (`createPlayerDeathParticles`,
`createDeathParticles`, `createDeathParticlesAt`, `createDecap`)

Randomness is supplied explicitly: one `PieceRand` per spawned piece and one
`DecapRand` per decapitation; `cosF`/`sinF`/`sqrtF` abstract the float
library calls in the launch-velocity computation. -/

/-- Random draws consumed when one burst piece is spawned. -/
structure PieceRand where
  redRoll : ℚ
  fallRoll : ℚ
  headRoll : ℚ
  distRoll : ℚ
  speedRollA : ℚ
  dirRoll : ℚ
  angleRoll : ℚ
  speedRoll : ℚ
  upRoll : ℚ
  angVelRoll : ℚ
deriving Repr

/-- Random draws consumed by the decapitation branch. -/
structure DecapRand where
  distRoll : ℚ
  speedRollA : ℚ
  dirRoll : ℚ
  angleRoll : ℚ
  speedRoll : ℚ
  upRoll : ℚ
  angVelRoll : ℚ
  durMs : ℕ
  moveDirRoll : ℚ
  dirDurMs : ℕ
deriving Repr

/-- Player sprite pieces, facing right (7 glyphs, head is '0'). -/
def playerPiecesRight : List (Char × ℤ × ℤ) :=
  [('~', 0, 0), ('0', 1, 0), ('(', 0, 1), ('|', 1, 1), ('\\', 2, 1), ('/', 0, 2), (')', 2, 2)]

/-- Player sprite pieces, facing left. -/
def playerPiecesLeft : List (Char × ℤ × ℤ) :=
  [('0', 1, 0), ('~', 2, 0), ('/', 0, 1), ('|', 1, 1), (')', 2, 1), ('(', 0, 2), ('\\', 2, 2)]

/-- Opponent sprite pieces, facing right (6 glyphs, head is 'O'). -/
def enemyPiecesRight : List (Char × ℤ × ℤ) :=
  [('O', 1, 0), ('(', 0, 1), ('|', 1, 1), ('\\', 2, 1), ('/', 0, 2), (')', 2, 2)]

/-- Opponent sprite pieces, facing left. -/
def enemyPiecesLeft : List (Char × ℤ × ℤ) :=
  [('O', 1, 0), ('/', 0, 1), ('|', 1, 1), (')', 2, 1), ('(', 0, 2), ('\\', 2, 2)]

/-- One fragment of a burst — the loop body shared by the three burst
routines: 20% red, 30% fall-through, 5% rolling for the head glyph, random
launch angle and speed with upward bias. -/
def mkBurstPiece (cosF sinF : ℚ → ℚ) (now : ℚ) (base : Vec2) (enemyID : ℤ)
    (wasOnPlatform : Bool) (headChar : Char) (pc : Char × ℤ × ℤ) (r : PieceRand) :
    DeathParticle :=
  let isHead := pc.1 = headChar
  let isRolling := isHead ∧ r.headRoll < 1/20
  let rollSpeed0 : ℚ := if isRolling then 40 + r.speedRollA * 20 else 0
  let angle := r.angleRoll * 2 * (314159/100000)
  let speed := 20 + r.speedRoll * 30
  { pos := ⟨base.x + (pc.2.1 : ℚ), base.y + (pc.2.2 : ℚ)⟩,
    vel := ⟨cosF angle * speed, -15 - r.upRoll * 25 + sinF angle * speed * (1/2)⟩,
    char := pc.1, onGround := false, bounces := 0, groundTime := 0, active := true,
    enemyID := enemyID, isRed := r.redRoll < 1/5,
    angularVel := (r.angVelRoll - 1/2) * 360, angle := 0,
    fallsThrough := r.fallRoll < 3/10, isHead := isHead, isRolling := isRolling,
    rollDistance := if isRolling then 20 + r.distRoll * 30 else 0,
    rollSpeed := if isRolling ∧ r.dirRoll < 1/2 then -rollSpeed0 else rollSpeed0,
    bouncedFromPlatform := false, wasOnPlatform := wasOnPlatform,
    hasSplattedFromPlatform := false, lastBloodEmit := now, hasHitGround := false }

/-- A whole burst: one fragment per sprite glyph, each immediately emitting
an initial impact burst scaled by its own launch speed. -/
def burstPieces (cosF sinF sqrtF : ℚ → ℚ) (now : ℚ) (base : Vec2) (enemyID : ℤ)
    (wasOnPlatform : Bool) (headChar : Char) (pieces : List (Char × ℤ × ℤ))
    (rands : ℕ → PieceRand) : List DeathParticle × List BloodEmit :=
  let ps := pieces.enum.map (fun ir =>
    mkBurstPiece cosF sinF now base enemyID wasOnPlatform headChar ir.2 (rands ir.1))
  (ps, ps.map (fun q =>
    ⟨min (sqrtF (q.vel.x * q.vel.x + q.vel.y * q.vel.y) / 80) 1, true, q.enemyID⟩))

/-- Player state (`Player` in main.go). -/
structure Player where
  pos : Vec2
  vel : Vec2
  facing : ℤ
  moveDir : ℤ
  width : ℤ
  height : ℤ
  onGround : Bool
  onPlatform : Bool
  lastOnGroundTime : ℚ
deriving DecidableEq, Repr

/-- `createPlayerDeathParticles`: the player shatters into its 7 sprite
glyphs, all owned by the reserved source id 0.  This routine contains no
decapitation branch. -/
def createPlayerDeathParticles (cosF sinF sqrtF : ℚ → ℚ) (now : ℚ) (player : Player)
    (rands : ℕ → PieceRand) : List DeathParticle × List BloodEmit :=
  burstPieces cosF sinF sqrtF now player.pos 0 false '0'
    (if player.facing = 1 then playerPiecesRight else playerPiecesLeft) rands

/-- The on-a-platform test shared by `createDeathParticles` and
`createDecap`. -/
def enemyOnPlatform (plats : List Platform) (e : Enemy) : Bool :=
  plats.any (fun pl => decide (e.pos.x < pl.x + pl.width ∧
    e.pos.x + (e.width : ℚ) > pl.x ∧ |e.pos.y + (e.height : ℚ) - pl.y| < 2))

/-- `createDecap`: the decapitation branch spawns one rolling head fragment
and one mobile corpse, both owned by the freshly reserved source id. -/
def createDecap (cosF sinF sqrtF : ℚ → ℚ) (now : ℚ) (plats : List Platform)
    (e : Enemy) (nextEnemyID : ℤ) (r : DecapRand) :
    List DeathParticle × List Corpse × ℤ × List BloodEmit :=
  let enemyID := nextEnemyID
  let wasOnPlatform := enemyOnPlatform plats e
  let rollSpeed0 : ℚ := 40 + r.speedRollA * 20
  let angle := r.angleRoll * 2 * (314159/100000)
  let speed := 20 + r.speedRoll * 30
  let velX := cosF angle * speed
  let velY := -15 - r.upRoll * 25 + sinF angle * speed * (1/2)
  let head : DeathParticle :=
    { pos := ⟨e.pos.x + 1, e.pos.y + 0⟩, vel := ⟨velX, velY⟩, char := 'O',
      onGround := false, bounces := 0, groundTime := 0, active := true,
      enemyID := enemyID, isRed := true, angularVel := (r.angVelRoll - 1/2) * 360,
      angle := 0, fallsThrough := false, isHead := true, isRolling := true,
      rollDistance := 20 + r.distRoll * 30,
      rollSpeed := if r.dirRoll < 1/2 then -rollSpeed0 else rollSpeed0,
      bouncedFromPlatform := false, wasOnPlatform := false,
      hasSplattedFromPlatform := false, lastBloodEmit := now, hasHitGround := false }
  let corp : Corpse :=
    { pos := e.pos, vel := e.vel, facing := e.facing, onGround := false, active := true,
      enemyID := enemyID, endTime := now + 2 + (r.durMs : ℚ) / 1000,
      moveDir := if r.moveDirRoll < 1/2 then -1 else 1,
      lastDirChange := now, dirDuration := ((200 + r.dirDurMs : ℕ) : ℚ) / 1000,
      lastBloodEmit := now, wasOnPlatform := wasOnPlatform }
  ([head], [corp], nextEnemyID + 1,
   [⟨min (sqrtF (velX * velX + velY * velY) / 80) 1, true, enemyID⟩])

/-- `createDeathParticles`: a 10% roll (`rand.Float64() < 0.1`; the inline
Go comment says "5% chance") picks the decapitation branch, otherwise the
normal 6-piece burst is spawned under a freshly reserved source id. -/
def createDeathParticles (cosF sinF sqrtF : ℚ → ℚ) (now : ℚ) (plats : List Platform)
    (e : Enemy) (nextEnemyID : ℤ) (decapRoll : ℚ) (dr : DecapRand)
    (rands : ℕ → PieceRand) : List DeathParticle × List Corpse × ℤ × List BloodEmit :=
  if decapRoll < 1/10 then createDecap cosF sinF sqrtF now plats e nextEnemyID dr
  else
    let wasOnPlatform := enemyOnPlatform plats e
    let b := burstPieces cosF sinF sqrtF now e.pos nextEnemyID wasOnPlatform 'O'
      (if e.facing = 1 then enemyPiecesRight else enemyPiecesLeft) rands
    (b.1, [], nextEnemyID + 1, b.2)

/-- `createDeathParticlesAt`: the 6-piece burst at an explicit position and
facing, reusing an already-owned source id (used when a corpse expires). -/
def createDeathParticlesAt (cosF sinF sqrtF : ℚ → ℚ) (now : ℚ) (pos : Vec2)
    (facing : ℤ) (enemyID : ℤ) (wasOnPlatform : Bool) (rands : ℕ → PieceRand) :
    List DeathParticle × List BloodEmit :=
  burstPieces cosF sinF sqrtF now pos enemyID wasOnPlatform 'O'
    (if facing = 1 then enemyPiecesRight else enemyPiecesLeft) rands

/-! ## Corpses (`updateCorpses`) -/

/-- Random draws consumed by one corpse update tick. -/
structure CorpseRand where
  dirDurMs : ℕ
  flipRoll : ℚ
  sprayRoll : ℚ
deriving Repr

/-- The corpse platform loop: the first platform inside the tolerance band
ends the loop; a descending corpse above the top lands on it. -/
def corpsePlatformScan (c : Corpse) : List Platform → Corpse × Bool
  | [] => (c, false)
  | pl :: rest =>
    if c.pos.x < pl.x + pl.width ∧ c.pos.x + 4 > pl.x ∧
        c.pos.y + 3 ≥ pl.y ∧ c.pos.y + 3 ≤ pl.y + pl.height + 1 then
      if c.vel.y > 0 ∧ c.pos.y < pl.y then
        ({ c with pos := ⟨c.pos.x, pl.y - 3⟩, vel := ⟨c.vel.x, 0⟩,
                  onGround := true, wasOnPlatform := true }, true)
      else (c, true)
    else corpsePlatformScan c rest

/-- The direction dwell-and-flip at the top of the per-corpse body. -/
def corpseDirStage (now : ℚ) (cr : CorpseRand) (c : Corpse) : Corpse :=
  if now - c.lastDirChange ≥ c.dirDuration then
    let cA : Corpse := { c with lastDirChange := now,
                                dirDuration := ((200 + cr.dirDurMs : ℕ) : ℚ) / 1000 }
    if cr.flipRoll < 1/2 then { cA with moveDir := -cA.moveDir } else cA
  else c

/-- Horizontal walk at 25 px/s, gravity, platform/ground resolution and the
screen clamping of the per-corpse body. -/
def corpseMovePhys (plats : List Platform) (width gGroundY : ℤ) (dt : ℚ)
    (c1 : Corpse) : Corpse :=
  let c2 : Corpse := { c1 with pos := ⟨c1.pos.x + (c1.moveDir : ℚ) * 25 * dt, c1.pos.y⟩ }
  let c3 : Corpse := { c2 with vel := ⟨c2.vel.x, c2.vel.y + 300 * dt⟩ }
  let c4 : Corpse := { c3 with pos := ⟨c3.pos.x, c3.pos.y + c3.vel.y * dt⟩ }
  let scan := corpsePlatformScan c4 plats
  let c5 : Corpse :=
    if scan.2 then scan.1
    else if scan.1.pos.y ≥ ((gGroundY - 3 : ℤ) : ℚ) then
      let cA : Corpse := { scan.1 with pos := ⟨scan.1.pos.x, ((gGroundY - 3 : ℤ) : ℚ)⟩ }
      let cB : Corpse := if cA.vel.y > 0 then { cA with vel := ⟨cA.vel.x, 0⟩ } else cA
      { cB with onGround := true }
    else { scan.1 with onGround := false }
  let c6 : Corpse :=
    if c5.pos.x < 0 then { c5 with pos := ⟨0, c5.pos.y⟩, moveDir := 1 } else c5
  if c6.pos.x > ((width - 4 : ℤ) : ℚ) then
    { c6 with pos := ⟨((width - 4 : ℤ) : ℚ), c6.pos.y⟩, moveDir := -1 }
  else c6

/-- The movement part of the per-corpse body: dwell-and-flip, horizontal
walk, gravity, platform/ground resolution and screen clamping. -/
def corpseMove (plats : List Platform) (width gGroundY : ℤ) (now dt : ℚ)
    (cr : CorpseRand) (c : Corpse) : Corpse :=
  corpseMovePhys plats width gGroundY dt (corpseDirStage now cr c)

/-- The per-corpse body of `updateCorpses`: the movement stages, the
periodic blood spray, and — once past the expiry deadline — one conversion
into a 6-piece burst at the current position followed by deactivation.  An
inactive corpse is skipped unchanged. -/
def stepCorpse (cosF sinF sqrtF : ℚ → ℚ) (plats : List Platform)
    (width gGroundY : ℤ) (now dt : ℚ) (cr : CorpseRand) (pieceRands : ℕ → PieceRand)
    (c : Corpse) : Corpse × List DeathParticle × List BloodEmit :=
  if c.active then
    let c7 := corpseMove plats width gGroundY now dt cr c
    let spray := now - c7.lastBloodEmit ≥ 2/25
    let c8 : Corpse := if spray then { c7 with lastBloodEmit := now } else c7
    let emSpray : List BloodEmit :=
      if spray then
        [⟨min ((|(c7.moveDir : ℚ)| * 25 / 80) * (7/5) + 3/20) 1, false, c7.enemyID⟩]
      else []
    if now > c8.endTime then
      let b := createDeathParticlesAt cosF sinF sqrtF now c8.pos c8.facing c8.enemyID
        c8.wasOnPlatform pieceRands
      ({ c8 with active := false }, b.1, emSpray ++ b.2)
    else (c8, [], emSpray)
  else (c, [], [])

/-- Bursts produced by one corpse across a sequence of update ticks; each
list entry carries that tick's `now`, `dt` and random draws. -/
def corpseRunBursts (cosF sinF sqrtF : ℚ → ℚ) (plats : List Platform)
    (width gGroundY : ℤ) :
    List (ℚ × ℚ × CorpseRand × (ℕ → PieceRand)) → Corpse → ℕ
  | [], _ => 0
  | s :: rest, c =>
    let r := stepCorpse cosF sinF sqrtF plats width gGroundY s.1 s.2.1 s.2.2.1 s.2.2.2 c
    (if r.2.1 = [] then 0 else 1) +
      corpseRunBursts cosF sinF sqrtF plats width gGroundY rest r.1

/-! ## Collision resolver (`checkCollisions`, player projectile loop) -/

/-- AABB overlap test between the 1x1 projectile box at `(x, y)` and an
enemy's bounding box. -/
def projBoxHit (x y : ℚ) (e : Enemy) : Bool :=
  decide (x < e.pos.x + (e.width : ℚ) ∧ x + 1 > e.pos.x ∧
          y < e.pos.y + (e.height : ℚ) ∧ y + 1 > e.pos.y)

/-- Swept collision test from `checkCollisions`: the current position, then
the previous position, then the four interior sample points of the
previous-to-current segment. -/
def projectileHitsEnemy (p : Projectile) (e : Enemy) : Bool :=
  projBoxHit p.pos.x p.pos.y e ||
  projBoxHit p.prevPos.x p.prevPos.y e ||
  (List.range' 1 4).any (fun k =>
    projBoxHit (p.prevPos.x + (p.pos.x - p.prevPos.x) * ((k : ℚ) / 5))
      (p.prevPos.y + (p.pos.y - p.prevPos.y) * ((k : ℚ) / 5)) e)

/-- The inner enemy loop of the player-projectile collision pass: the first
active enemy hit consumes the projectile, kills the enemy, adds 10 score and
counts the defeat (the debris burst it also spawns is modelled by
`createDeathParticles`). -/
def resolveProjEnemies (p : Projectile) :
    List Enemy → ℤ → ℤ → Projectile × List Enemy × ℤ × ℤ
  | [], score, defeated => (p, [], score, defeated)
  | e :: rest, score, defeated =>
    if e.active ∧ projectileHitsEnemy p e then
      ({ p with active := false }, { e with active := false } :: rest,
       score + 10, defeated + 1)
    else
      let r := resolveProjEnemies p rest score defeated
      (r.1, e :: r.2.1, r.2.2)

/-- The delta-time clamp of the main loop (`run`): a long real-time gap is
capped at 0.1 s before being used as the tick's dt. -/
def clampDt (dt : ℚ) : ℚ :=
  if dt > 1/10 then 1/10 else dt

/-! ## Whole-round state and resets (`Game`, `handleInput`) -/

/-- The portion of the Go `Game` struct that carries simulation state. -/
structure GameState where
  player : Player
  projectiles : List Projectile
  enemies : List Enemy
  deathParticles : List DeathParticle
  corpses : List Corpse
  bloodParticles : List BloodParticle
  platforms : List Platform
  score : ℤ
  enemiesDefeated : ℤ
  enemySpawnCounter : ℤ
  gameOver : Bool
  inMenu : Bool
  width : ℤ
  height : ℤ
  groundY : ℤ
  redGroundTiles : List (ℤ × ℤ)
  redPlatformTiles : List (ℤ × ℤ)
  nextEnemyID : ℤ
  lastShot : ℚ
deriving Repr

/-- Effect of a player defeat in `checkCollisions`: the player's burst is
appended and the round enters the terminal game-over state.  No corpse is
created on this path — `createPlayerDeathParticles` has no decapitation
branch and the corpse list is untouched. -/
def onPlayerDefeat (cosF sinF sqrtF : ℚ → ℚ) (now : ℚ) (rands : ℕ → PieceRand)
    (g : GameState) : GameState :=
  let b := createPlayerDeathParticles cosF sinF sqrtF now g.player rands
  { g with deathParticles := g.deathParticles ++ b.1, gameOver := true }

/-- The menu-start reset (`handleInput`, space pressed in the menu): clears
the demo entities, stains and counters, resets the player, regenerates the
platforms and leaves the menu.  The corpse list is not touched. -/
def startGameReset (now : ℚ) (newPlatforms : List Platform) (g : GameState) :
    GameState :=
  { g with
      projectiles := [], enemies := [], deathParticles := [], bloodParticles := [],
      redGroundTiles := [], redPlatformTiles := [],
      player := { pos := ⟨((g.width / 2 : ℤ) : ℚ), ((g.groundY - 3 : ℤ) : ℚ)⟩,
                  vel := ⟨0, 0⟩, facing := 1, moveDir := 0, width := 4, height := 3,
                  onGround := true, onPlatform := false, lastOnGroundTime := now },
      score := 0, enemiesDefeated := 0, enemySpawnCounter := 0, gameOver := false,
      nextEnemyID := 1, lastShot := 0, platforms := newPlatforms, inMenu := false }

/-- The game-over restart reset (`handleInput`, enter pressed at game over):
clears the same collections, stains and counters, resets the player,
regenerates the platforms and returns to the menu.  The corpse list is not
touched. -/
def restartReset (now : ℚ) (newPlatforms : List Platform) (g : GameState) :
    GameState :=
  { g with
      player := { pos := ⟨((g.width / 2 : ℤ) : ℚ), ((g.groundY - 3 : ℤ) : ℚ)⟩,
                  vel := ⟨0, 0⟩, facing := 1, moveDir := 0, width := 4, height := 3,
                  onGround := true, onPlatform := false, lastOnGroundTime := now },
      projectiles := [], enemies := [], platforms := newPlatforms,
      deathParticles := [], bloodParticles := [],
      redGroundTiles := [], redPlatformTiles := [],
      score := 0, enemiesDefeated := 0, enemySpawnCounter := 0,
      gameOver := false, inMenu := true }

/-- Sample player fragment at rest on the ground, used in concrete
evaluations. -/
def restFrag : DeathParticle :=
  { pos := ⟨40, 22⟩, vel := ⟨0, 0⟩, char := '0', onGround := true, bounces := 0,
    groundTime := 0, active := true, enemyID := 0, isRed := false, angularVel := 0,
    angle := 0, fallsThrough := false, isHead := false, isRolling := false,
    rollDistance := 0, rollSpeed := 0, bouncedFromPlatform := false,
    wasOnPlatform := false, hasSplattedFromPlatform := false, lastBloodEmit := 0,
    hasHitGround := false }

/-- Sample opponent on the right half of an 80-column arena, used in
concrete evaluations. -/
def walkEnemy : Enemy :=
  { pos := ⟨50, 20⟩, vel := ⟨0, 0⟩, facing := 1, width := 4, height := 3,
    active := true, canShoot := false, lastShot := 0, nextShotDelay := 0,
    onGround := true, jumpCooldown := 0 }

/-- Sample blood particle descending onto the ground line, used in concrete
evaluations. -/
def bloodDrop : BloodParticle :=
  { pos := ⟨40, 45/2⟩, vel := ⟨0, 10⟩, char := '.', active := true,
    lifetime := 1/2, enemyID := 3 }

/-- All-zero piece randomness, used in concrete evaluations. -/
def zeroPieceRand : PieceRand :=
  { redRoll := 0, fallRoll := 0, headRoll := 0, distRoll := 0, speedRollA := 0,
    dirRoll := 0, angleRoll := 0, speedRoll := 0, upRoll := 0, angVelRoll := 0 }

/-- All-zero decapitation randomness, used in concrete evaluations. -/
def zeroDecapRand : DecapRand :=
  { distRoll := 0, speedRollA := 0, dirRoll := 0, angleRoll := 0, speedRoll := 0,
    upRoll := 0, angVelRoll := 0, durMs := 0, moveDirRoll := 0, dirDurMs := 0 }

/-- Sample game state about to suffer a player defeat, with no corpses. -/
def cexGame : GameState :=
  { player := { pos := ⟨40, 20⟩, vel := ⟨0, 0⟩, facing := 1, moveDir := 0, width := 4,
                height := 3, onGround := true, onPlatform := false,
                lastOnGroundTime := 0 },
    projectiles := [], enemies := [], deathParticles := [], corpses := [],
    bloodParticles := [], platforms := [], score := 0, enemiesDefeated := 0,
    enemySpawnCounter := 0, gameOver := false, inMenu := false, width := 80,
    height := 24, groundY := 23, redGroundTiles := [], redPlatformTiles := [],
    nextEnemyID := 1, lastShot := 0 }

/-- Sample fast player projectile for the swept-collision witness: it moved
from x = 0 to x = 20 in one clamped tick. -/
def sweptProj : Projectile :=
  { pos := ⟨20, 10⟩, prevPos := ⟨0, 10⟩, dir := 1, active := true, frame := 3,
    isEnemy := false }

/-- Sample opponent standing between the two endpoints of `sweptProj`. -/
def sweptEnemy : Enemy :=
  { pos := ⟨10, 8⟩, vel := ⟨0, 0⟩, facing := -1, width := 4, height := 3,
    active := true, canShoot := false, lastShot := 0, nextShotDelay := 0,
    onGround := true, jumpCooldown := 0 }

/-- A source id owns at least one active fragment or blood particle. -/
def idHasActiveParticle (dps : List DeathParticle) (bps : List BloodParticle)
    (id : ℤ) : Prop :=
  (∃ q ∈ dps, q.active = true ∧ q.enemyID = id) ∨
  (∃ b ∈ bps, b.active = true ∧ b.enemyID = id)

/-- Sample active corpse already past its expiry deadline at time 4. -/
def cexCorpse : Corpse :=
  { pos := ⟨40, 20⟩, vel := ⟨0, 0⟩, facing := 1, onGround := true, active := true,
    enemyID := 7, endTime := 3, moveDir := 1, lastDirChange := 0, dirDuration := 1/2,
    lastBloodEmit := 0, wasOnPlatform := false }

/-- Sample corpse randomness. -/
def cexCR : CorpseRand := { dirDurMs := 0, flipRoll := 1, sprayRoll := 0 }

/-- Sample game state holding one active corpse, about to be reset. -/
def corpseGame : GameState := { cexGame with corpses := [cexCorpse] }

/-! ## Theorems -/

lemma FragStep.trans {p q r : DeathParticle} (hpq : FragStep p q) (hqr : FragStep q r) :
    FragStep p r := by
  obtain ⟨h1, h2, h3⟩ := hpq
  obtain ⟨k1, k2, k3⟩ := hqr
  refine ⟨k1, ?_, h3 ▸ k3⟩
  intro h999
  rcases k2 h999 with h | h
  · exact h2 h
  · exact Or.inr (h3 ▸ h)

lemma FragStep.refl (p : DeathParticle) (h : FragInv p) : FragStep p p :=
  ⟨h, fun h999 => Or.inl h999, rfl⟩

lemma FragStep.pre {p q r : DeathParticle} (hqb : q.bounces = p.bounces)
    (hqf : q.fallsThrough = p.fallsThrough) (h : FragStep q r) : FragStep p r := by
  refine ⟨h.1, ?_, h.2.2.trans hqf⟩
  intro h999
  rcases h.2.1 h999 with hh | hh
  · exact Or.inl (hqb ▸ hh)
  · exact Or.inr (hqf ▸ hh)

lemma dpAirEmit_step (sqrtF : ℚ → ℚ) (now : ℚ) (p : DeathParticle) (h : FragInv p) :
    FragStep p (dpAirEmit sqrtF now p).1 := by
  obtain ⟨hb, hg⟩ := h
  simp only [dpAirEmit]
  split_ifs <;> exact ⟨⟨hb, hg⟩, fun h999 => Or.inl h999, rfl⟩

lemma dpIntegrate_step (dt : ℚ) (p : DeathParticle) (h : FragInv p) :
    FragStep p (dpIntegrate dt p) := by
  obtain ⟨hb, hg⟩ := h
  simp only [dpIntegrate]
  split_ifs with h1
  · exact ⟨⟨hb, hg⟩, fun h999 => Or.inl h999, rfl⟩
  · refine ⟨⟨hb, ?_⟩, fun h999 => Or.inl h999, rfl⟩
    intro hOn
    exact absurd ⟨hOn, hg hOn⟩ h1

lemma dpPlatformScan_step (now : ℚ) (p : DeathParticle) (plats : List Platform)
    (h : FragInv p) : FragStep p (dpPlatformScan now p plats).1 := by
  induction plats with
  | nil => exact FragStep.refl p h
  | cons pl rest ih =>
    obtain ⟨hb, hg⟩ := h
    simp only [dpPlatformScan]
    split_ifs
    all_goals try exact ih
    all_goals refine ⟨⟨?_, ?_⟩, ?_, rfl⟩
    all_goals simp_all
    all_goals omega

lemma dpPlatformExpiry_step (now : ℚ) (onPlatform : Bool) (p : DeathParticle)
    (h : FragInv p) : FragStep p (dpPlatformExpiry now onPlatform p) := by
  obtain ⟨hb, hg⟩ := h
  simp only [dpPlatformExpiry]
  split_ifs
  all_goals refine ⟨⟨?_, ?_⟩, ?_, rfl⟩
  all_goals simp_all

lemma dpGroundSettle_step (now : ℚ) (q : DeathParticle) (hb : q.bounces ≤ 2 ∨ q.bounces = 999)
    (hv : q.vel.y = 0) : FragStep q (dpGroundSettle now q) := by
  simp only [dpGroundSettle]
  split_ifs
  all_goals refine ⟨⟨?_, ?_⟩, ?_, rfl⟩
  all_goals simp_all

lemma dpGroundIdle_step (now : ℚ) (q : DeathParticle) (h : FragInv q) :
    FragStep q (dpGroundIdle now q) := by
  obtain ⟨hb, hg⟩ := h
  simp only [dpGroundIdle]
  split_ifs
  all_goals refine ⟨⟨?_, ?_⟩, ?_, rfl⟩
  all_goals simp_all

lemma dpGroundRest_step (now : ℚ) (p2 : DeathParticle) (em2 : List BloodEmit)
    (h : FragInv p2) : FragStep p2 (dpGroundRest now p2 em2).1 := by
  obtain ⟨hb, hg⟩ := h
  simp only [dpGroundRest]
  split_ifs
  all_goals
    first
      | exact FragStep.refl _ ⟨hb, hg⟩
      | exact FragStep.pre rfl rfl (dpGroundSettle_step now _ hb rfl)
      | exact FragStep.pre rfl rfl
          (dpGroundIdle_step now _ ⟨hb, fun _ => by simp_all⟩)
      | exact ⟨⟨hb, fun _ => rfl⟩, fun h999 => Or.inl h999, rfl⟩
      | (refine ⟨⟨?_, ?_⟩, ?_, rfl⟩ <;> simp_all <;> omega)

lemma dpGroundPass_step (now groundY : ℚ) (onPlatform : Bool) (p : DeathParticle)
    (h : FragInv p) : FragStep p (dpGroundPass now groundY onPlatform p).1 := by
  obtain ⟨hb, hg⟩ := h
  simp only [dpGroundPass]
  split_ifs with h1 h2 h3 h4
  · refine ⟨⟨?_, ?_⟩, ?_, rfl⟩ <;> simp_all
  · exact (FragStep.refl _ ⟨hb, by simp_all⟩).trans
      (dpGroundRest_step now _ _ ⟨hb, by simp_all⟩)
  · exact (FragStep.refl _ ⟨hb, by simp_all⟩).trans
      (dpGroundRest_step now _ _ ⟨hb, by simp_all⟩)
  · exact FragStep.refl _ ⟨hb, hg⟩
  · exact FragStep.refl _ ⟨hb, hg⟩

lemma dpOffBottom_step (height : ℤ) (p : DeathParticle) (h : FragInv p) :
    FragStep p (dpOffBottom height p) := by
  obtain ⟨hb, hg⟩ := h
  simp only [dpOffBottom]
  split_ifs <;> exact ⟨⟨hb, hg⟩, fun h999 => Or.inl h999, rfl⟩

lemma dpRollTail_step (now : ℚ) (q : DeathParticle) (hb : q.bounces ≤ 2 ∨ q.bounces = 999)
    (hv : q.vel.y = 0) : FragStep q (dpRollTail now q) := by
  simp only [dpRollTail]
  split_ifs
  all_goals refine ⟨⟨?_, ?_⟩, ?_, rfl⟩
  all_goals simp_all

lemma dpRollPass_step (now dt : ℚ) (p : DeathParticle) (h : FragInv p) :
    FragStep p (dpRollPass now dt p).1 := by
  obtain ⟨hb, hg⟩ := h
  simp only [dpRollPass]
  split_ifs
  all_goals
    first
      | exact FragStep.refl _ ⟨hb, hg⟩
      | exact FragStep.pre rfl rfl (dpRollTail_step now _ hb (by simp_all))
      | exact ⟨⟨hb, fun _ => rfl⟩, fun h999 => Or.inl h999, rfl⟩

lemma dpOffSides_step (width : ℤ) (p : DeathParticle) (h : FragInv p) :
    FragStep p (dpOffSides width p) := by
  obtain ⟨hb, hg⟩ := h
  simp only [dpOffSides]
  split_ifs <;> exact ⟨⟨hb, hg⟩, fun h999 => Or.inl h999, rfl⟩

lemma stepDeathParticle_step (sqrtF : ℚ → ℚ) (plats : List Platform)
    (width height gGroundY : ℤ) (now dt : ℚ) (p : DeathParticle) (h : FragInv p) :
    FragStep p (stepDeathParticle sqrtF plats width height gGroundY now dt p).1 := by
  simp only [stepDeathParticle]
  have s1 := dpAirEmit_step sqrtF now p h
  have s2 := dpIntegrate_step dt _ s1.1
  have s3 := dpPlatformScan_step now _ plats s2.1
  have s4 := dpPlatformExpiry_step now (dpPlatformScan now
      (dpIntegrate dt (dpAirEmit sqrtF now p).1) plats).2.1 _ s3.1
  have s5 := dpGroundPass_step now ((gGroundY - 1 : ℤ) : ℚ) (dpPlatformScan now
      (dpIntegrate dt (dpAirEmit sqrtF now p).1) plats).2.1 _ s4.1
  have s6 := dpOffBottom_step height _ s5.1
  have s7 := dpRollPass_step now dt _ s6.1
  have s8 := dpOffSides_step width _ s7.1
  exact (((((((s1.trans s2).trans s3).trans s4).trans s5).trans s6).trans s7).trans s8)

lemma dpAirEmit_keeps (sqrtF : ℚ → ℚ) (now : ℚ) (p : DeathParticle) :
    (dpAirEmit sqrtF now p).1.pos = p.pos ∧ (dpAirEmit sqrtF now p).1.vel = p.vel ∧
    (dpAirEmit sqrtF now p).1.onGround = p.onGround ∧
    (dpAirEmit sqrtF now p).1.bounces = p.bounces ∧
    (dpAirEmit sqrtF now p).1.fallsThrough = p.fallsThrough := by
  simp only [dpAirEmit]
  split_ifs <;> simp

lemma dpAirEmit_impact_filter (sqrtF : ℚ → ℚ) (now : ℚ) (p : DeathParticle) :
    (dpAirEmit sqrtF now p).2.filter (fun e => e.impact) = [] := by
  simp only [dpAirEmit]
  split_ifs <;> simp

lemma dpPlatformExpiry_false (now : ℚ) (p : DeathParticle) :
    dpPlatformExpiry now false p = p := by
  simp [dpPlatformExpiry]

lemma dpRollPass_airborne (now dt : ℚ) (p : DeathParticle) (h : p.onGround = false) :
    dpRollPass now dt p = (p, []) := by
  simp [dpRollPass, h]

lemma dpGroundPass_fallsThrough_first (now groundY : ℚ) (Y : DeathParticle)
    (h1 : Y.pos.y ≥ groundY) (h2 : Y.fallsThrough = true) (h3 : Y.vel.y > 0)
    (h4 : Y.bounces = 0) :
    dpGroundPass now groundY false Y =
      ({ Y with bounces := 999 }, [⟨min (|Y.vel.y| / 60) 1, true, Y.enemyID⟩]) := by
  simp only [dpGroundPass]
  rw [if_pos ⟨by simp, h1⟩, if_pos ⟨h2, h3, h4⟩]

lemma dpGroundPass_fallsThrough_again (now groundY : ℚ) (Y : DeathParticle)
    (h1 : Y.pos.y ≥ groundY) (h2 : Y.fallsThrough = true) (h3 : Y.bounces = 999) :
    dpGroundPass now groundY false Y = (Y, []) := by
  simp only [dpGroundPass]
  rw [if_pos ⟨by simp, h1⟩, if_neg (by simp [h3]), if_neg (by simp [h2, h3])]

/-- Fields preserved by the post-ground stages when the fragment is
airborne: the off-screen checks only touch the active flag and the rolling
branch is skipped. -/
lemma dpPostGround_airborne (width height : ℤ) (now dt : ℚ) (Z : DeathParticle)
    (h : Z.onGround = false) :
    ((dpOffSides width (dpRollPass now dt (dpOffBottom height Z)).1).pos = Z.pos ∧
     (dpOffSides width (dpRollPass now dt (dpOffBottom height Z)).1).vel = Z.vel ∧
     (dpOffSides width (dpRollPass now dt (dpOffBottom height Z)).1).onGround = false ∧
     (dpOffSides width (dpRollPass now dt (dpOffBottom height Z)).1).bounces = Z.bounces) ∧
    (dpRollPass now dt (dpOffBottom height Z)).2 = [] := by
  have hob : (dpOffBottom height Z).onGround = false := by
    simp only [dpOffBottom]
    split_ifs <;> simp [h]
  rw [dpRollPass_airborne now dt _ hob]
  simp only [dpOffBottom, dpOffSides]
  split_ifs <;> simp [h]

/-- Claim C2, counterexample: one update tick of a concrete fall-through
fragment that crosses the ground plane sets its bounce counter to the
sentinel 999, so the bounce counter does exceed 2. -/
theorem c2_counterexample :
    fallFragTick1.1.bounces = 999 ∧ ¬fallFragTick1.1.bounces ≤ 2 := by
  norm_num [fallFragTick1, fallFrag, stepDeathParticle, dpAirEmit, dpIntegrate,
    dpPlatformScan, dpPlatformExpiry, dpGroundPass, dpGroundRest, dpGroundSettle,
    dpGroundIdle, dpOffBottom, dpRollPass, dpRollTail, dpOffSides, ratTrunc]

/-- Claim C2, amended: across one fragment update tick the bounce counter
stays at most 2 unless it is the fall-through sentinel 999, the sentinel is
only ever introduced on a fragment flagged fall-through, and a settled
(on-ground) fragment has zero vertical velocity. -/
theorem c2_bounce_cap_amended (sqrtF : ℚ → ℚ) (plats : List Platform)
    (width height gGroundY : ℤ) (now dt : ℚ) (p : DeathParticle)
    (hb : p.bounces ≤ 2 ∨ p.bounces = 999) (hg : p.onGround → p.vel.y = 0) :
    ((stepDeathParticle sqrtF plats width height gGroundY now dt p).1.bounces ≤ 2 ∨
      (stepDeathParticle sqrtF plats width height gGroundY now dt p).1.bounces = 999) ∧
    ((stepDeathParticle sqrtF plats width height gGroundY now dt p).1.onGround →
      (stepDeathParticle sqrtF plats width height gGroundY now dt p).1.vel.y = 0) ∧
    ((stepDeathParticle sqrtF plats width height gGroundY now dt p).1.bounces = 999 →
      p.bounces = 999 ∨ p.fallsThrough) := by
  have h := stepDeathParticle_step sqrtF plats width height gGroundY now dt p ⟨hb, hg⟩
  exact ⟨h.1.1, h.1.2, h.2.1⟩

/-- Witness for the amended C2 theorem at the concrete fragment `fallFrag`. -/
theorem c2_bounce_cap_witness :
    ((fallFrag.bounces ≤ 2 ∨ fallFrag.bounces = 999) ∧
      (fallFrag.onGround → fallFrag.vel.y = 0)) ∧
    (((stepDeathParticle (fun _ => 0) [] 80 24 23 0 (1/30) fallFrag).1.bounces ≤ 2 ∨
       (stepDeathParticle (fun _ => 0) [] 80 24 23 0 (1/30) fallFrag).1.bounces = 999) ∧
     ((stepDeathParticle (fun _ => 0) [] 80 24 23 0 (1/30) fallFrag).1.onGround →
       (stepDeathParticle (fun _ => 0) [] 80 24 23 0 (1/30) fallFrag).1.vel.y = 0) ∧
     ((stepDeathParticle (fun _ => 0) [] 80 24 23 0 (1/30) fallFrag).1.bounces = 999 →
       fallFrag.bounces = 999 ∨ fallFrag.fallsThrough)) :=
  ⟨⟨Or.inl (by decide), fun h => absurd h (by decide)⟩,
   c2_bounce_cap_amended (fun _ => 0) [] 80 24 23 0 (1/30) fallFrag
     (Or.inl (by decide)) (fun h => absurd h (by decide))⟩

/-- Claim C3, counterexample: the concrete fall-through fragment of
`fallFragTick1` passes the ground on its first crossing with exactly one
impact burst, but on the next tick — still below the ground plane and
descending — no ground collision is processed at all: the position advances
past the ground unclamped, the vertical velocity keeps growing, the fragment
is not grounded, and no impact burst is emitted, contradicting the claimed
return to normal bounce-or-settle collision. -/
theorem c3_counterexample :
    fallFragTick1.1.bounces = 999 ∧
    (fallFragTick1.2.filter (fun e => e.impact)).length = 1 ∧
    fallFragTick2.1.pos.y = 24 ∧
    fallFragTick2.1.vel.y = 50 ∧
    fallFragTick2.1.onGround = false ∧
    (fallFragTick2.2.filter (fun e => e.impact)).length = 0 := by
  norm_num [fallFragTick1, fallFragTick2, fallFrag, stepDeathParticle, dpAirEmit,
    dpIntegrate, dpPlatformScan, dpPlatformExpiry, dpGroundPass, dpGroundRest,
    dpGroundSettle, dpGroundIdle, dpOffBottom, dpRollPass, dpRollTail, dpOffSides,
    ratTrunc]

/-- Claim C3, amended: over one update tick with no platforms, a
fall-through fragment that is airborne and crosses the ground plane while
descending behaves as follows.  If its bounce counter is 0 (it has never
bounced or passed through), it passes straight through: the counter becomes
the sentinel 999, exactly one impact burst is emitted, the position is the
unclamped integrated position and the fragment stays airborne.  If its
counter already holds the sentinel 999, the ground is ignored entirely and
forever: no impact burst, no clamping, no bounce and no settling occur. -/
theorem c3_falls_through_amended (sqrtF : ℚ → ℚ) (width height gGroundY : ℤ)
    (now dt : ℚ) (p : DeathParticle)
    (hf : p.fallsThrough = true) (hng : p.onGround = false)
    (hcross : p.pos.y + (p.vel.y + 300 * dt) * dt ≥ ((gGroundY - 1 : ℤ) : ℚ))
    (hdown : p.vel.y + 300 * dt > 0) :
    (p.bounces = 0 →
      (stepDeathParticle sqrtF [] width height gGroundY now dt p).1.bounces = 999 ∧
      ((stepDeathParticle sqrtF [] width height gGroundY now dt p).2.filter
          (fun e => e.impact)).length = 1 ∧
      (stepDeathParticle sqrtF [] width height gGroundY now dt p).1.pos.y =
        p.pos.y + (p.vel.y + 300 * dt) * dt ∧
      (stepDeathParticle sqrtF [] width height gGroundY now dt p).1.onGround = false) ∧
    (p.bounces = 999 →
      (stepDeathParticle sqrtF [] width height gGroundY now dt p).1.bounces = 999 ∧
      ((stepDeathParticle sqrtF [] width height gGroundY now dt p).2.filter
          (fun e => e.impact)).length = 0 ∧
      (stepDeathParticle sqrtF [] width height gGroundY now dt p).1.pos.y =
        p.pos.y + (p.vel.y + 300 * dt) * dt ∧
      (stepDeathParticle sqrtF [] width height gGroundY now dt p).1.vel.y =
        p.vel.y + 300 * dt ∧
      (stepDeathParticle sqrtF [] width height gGroundY now dt p).1.onGround = false) := by
  have hfil := dpAirEmit_impact_filter sqrtF now p
  obtain ⟨e1, e2, e3, e4, e5⟩ := dpAirEmit_keeps sqrtF now p
  have hcond : ¬((dpAirEmit sqrtF now p).1.onGround = true ∧
      (dpAirEmit sqrtF now p).1.vel.y = 0) := by
    simp [e3, hng]
  have hYpos : (dpIntegrate dt (dpAirEmit sqrtF now p).1).pos.y =
      p.pos.y + (p.vel.y + 300 * dt) * dt := by
    simp only [dpIntegrate, if_neg hcond]
    simp [e1, e2]
  have hYvel : (dpIntegrate dt (dpAirEmit sqrtF now p).1).vel.y = p.vel.y + 300 * dt := by
    simp only [dpIntegrate, if_neg hcond]
    simp [e2]
  have hYon : (dpIntegrate dt (dpAirEmit sqrtF now p).1).onGround = false := by
    simp only [dpIntegrate, if_neg hcond]
    simp [e3, hng]
  have hYfall : (dpIntegrate dt (dpAirEmit sqrtF now p).1).fallsThrough = true := by
    simp only [dpIntegrate, if_neg hcond]
    simp [e5, hf]
  have hYb : (dpIntegrate dt (dpAirEmit sqrtF now p).1).bounces = p.bounces := by
    simp only [dpIntegrate, if_neg hcond]
    simp [e4]
  constructor
  · intro hb
    have hGP := dpGroundPass_fallsThrough_first now ((gGroundY - 1 : ℤ) : ℚ)
      (dpIntegrate dt (dpAirEmit sqrtF now p).1) (by rw [hYpos]; exact hcross) hYfall
      (by rw [hYvel]; exact hdown) (by rw [hYb]; exact hb)
    have htail := dpPostGround_airborne width height now dt
      { dpIntegrate dt (dpAirEmit sqrtF now p).1 with bounces := 999 } hYon
    simp only [stepDeathParticle, dpPlatformScan, dpPlatformExpiry_false, hGP]
    refine ⟨htail.1.2.2.2, ?_, ?_, htail.1.2.2.1⟩
    · simp [List.filter_append, hfil, htail.2]
    · have hp := htail.1.1
      rw [hp]
      exact hYpos
  · intro hb
    have hGP := dpGroundPass_fallsThrough_again now ((gGroundY - 1 : ℤ) : ℚ)
      (dpIntegrate dt (dpAirEmit sqrtF now p).1) (by rw [hYpos]; exact hcross) hYfall
      (by rw [hYb]; exact hb)
    have htail := dpPostGround_airborne width height now dt
      (dpIntegrate dt (dpAirEmit sqrtF now p).1) hYon
    simp only [stepDeathParticle, dpPlatformScan, dpPlatformExpiry_false, hGP]
    refine ⟨?_, ?_, ?_, ?_, htail.1.2.2.1⟩
    · rw [htail.1.2.2.2, hYb]
      exact hb
    · simp [List.filter_append, hfil, htail.2]
    · rw [htail.1.1]
      exact hYpos
    · rw [htail.1.2.1]
      exact hYvel

/-- Witness for the amended C3 theorem at the concrete fragment `fallFrag`. -/
theorem c3_falls_through_witness :
    (fallFrag.fallsThrough = true ∧ fallFrag.onGround = false ∧
      fallFrag.pos.y + (fallFrag.vel.y + 300 * (1/30)) * (1/30) ≥ ((23 - 1 : ℤ) : ℚ) ∧
      fallFrag.vel.y + 300 * (1/30) > 0) ∧
    ((fallFrag.bounces = 0 →
      (stepDeathParticle (fun _ => 0) [] 80 24 23 0 (1/30) fallFrag).1.bounces = 999 ∧
      ((stepDeathParticle (fun _ => 0) [] 80 24 23 0 (1/30) fallFrag).2.filter
          (fun e => e.impact)).length = 1 ∧
      (stepDeathParticle (fun _ => 0) [] 80 24 23 0 (1/30) fallFrag).1.pos.y =
        fallFrag.pos.y + (fallFrag.vel.y + 300 * (1/30)) * (1/30) ∧
      (stepDeathParticle (fun _ => 0) [] 80 24 23 0 (1/30) fallFrag).1.onGround = false) ∧
     (fallFrag.bounces = 999 →
      (stepDeathParticle (fun _ => 0) [] 80 24 23 0 (1/30) fallFrag).1.bounces = 999 ∧
      ((stepDeathParticle (fun _ => 0) [] 80 24 23 0 (1/30) fallFrag).2.filter
          (fun e => e.impact)).length = 0 ∧
      (stepDeathParticle (fun _ => 0) [] 80 24 23 0 (1/30) fallFrag).1.pos.y =
        fallFrag.pos.y + (fallFrag.vel.y + 300 * (1/30)) * (1/30) ∧
      (stepDeathParticle (fun _ => 0) [] 80 24 23 0 (1/30) fallFrag).1.vel.y =
        fallFrag.vel.y + 300 * (1/30) ∧
      (stepDeathParticle (fun _ => 0) [] 80 24 23 0 (1/30) fallFrag).1.onGround = false)) :=
  ⟨⟨by decide, by decide, by norm_num [fallFrag], by norm_num [fallFrag]⟩,
   c3_falls_through_amended (fun _ => 0) 80 24 23 0 (1/30) fallFrag (by decide) (by decide)
     (by norm_num [fallFrag]) (by norm_num [fallFrag])⟩

lemma dpAirEmit_enemyID (sqrtF : ℚ → ℚ) (now : ℚ) (p : DeathParticle) :
    (dpAirEmit sqrtF now p).1.enemyID = p.enemyID := by
  simp only [dpAirEmit]
  split_ifs <;> simp

lemma dpIntegrate_enemyID (dt : ℚ) (p : DeathParticle) :
    (dpIntegrate dt p).enemyID = p.enemyID := by
  simp only [dpIntegrate]
  split_ifs <;> simp

lemma dpPlatformScan_enemyID (now : ℚ) (p : DeathParticle) (plats : List Platform) :
    (dpPlatformScan now p plats).1.enemyID = p.enemyID := by
  induction plats with
  | nil => rfl
  | cons pl rest ih =>
    simp only [dpPlatformScan]
    split_ifs <;> first | rfl | exact ih | simp

lemma dpPlatformExpiry_enemyID (now : ℚ) (onPlatform : Bool) (p : DeathParticle) :
    (dpPlatformExpiry now onPlatform p).enemyID = p.enemyID := by
  simp only [dpPlatformExpiry]
  split_ifs <;> simp

lemma dpGroundSettle_enemyID (now : ℚ) (q : DeathParticle) :
    (dpGroundSettle now q).enemyID = q.enemyID := by
  simp only [dpGroundSettle]
  split_ifs <;> simp

lemma dpGroundIdle_enemyID (now : ℚ) (q : DeathParticle) :
    (dpGroundIdle now q).enemyID = q.enemyID := by
  simp only [dpGroundIdle]
  split_ifs <;> simp

lemma dpGroundRest_enemyID (now : ℚ) (p2 : DeathParticle) (em2 : List BloodEmit) :
    (dpGroundRest now p2 em2).1.enemyID = p2.enemyID := by
  simp only [dpGroundRest]
  split_ifs <;> simp [dpGroundSettle_enemyID, dpGroundIdle_enemyID]

lemma dpGroundPass_enemyID (now groundY : ℚ) (onPlatform : Bool) (p : DeathParticle) :
    (dpGroundPass now groundY onPlatform p).1.enemyID = p.enemyID := by
  simp only [dpGroundPass]
  split_ifs <;> simp [dpGroundRest_enemyID]

lemma dpOffBottom_enemyID (height : ℤ) (p : DeathParticle) :
    (dpOffBottom height p).enemyID = p.enemyID := by
  simp only [dpOffBottom]
  split_ifs <;> simp

lemma dpRollTail_enemyID (now : ℚ) (q : DeathParticle) :
    (dpRollTail now q).enemyID = q.enemyID := by
  simp only [dpRollTail]
  split_ifs <;> simp

lemma dpRollPass_enemyID (now dt : ℚ) (p : DeathParticle) :
    (dpRollPass now dt p).1.enemyID = p.enemyID := by
  simp only [dpRollPass]
  split_ifs <;> simp [dpRollTail_enemyID]

lemma dpOffSides_enemyID (width : ℤ) (p : DeathParticle) :
    (dpOffSides width p).enemyID = p.enemyID := by
  simp only [dpOffSides]
  split_ifs <;> simp

lemma stepDeathParticle_enemyID (sqrtF : ℚ → ℚ) (plats : List Platform)
    (width height gGroundY : ℤ) (now dt : ℚ) (p : DeathParticle) :
    (stepDeathParticle sqrtF plats width height gGroundY now dt p).1.enemyID =
      p.enemyID := by
  simp only [stepDeathParticle]
  rw [dpOffSides_enemyID, dpRollPass_enemyID, dpOffBottom_enemyID, dpGroundPass_enemyID,
    dpPlatformExpiry_enemyID, dpPlatformScan_enemyID, dpIntegrate_enemyID,
    dpAirEmit_enemyID]

lemma enemyPlatformScan_posx (e : Enemy) (plats : List Platform) :
    (enemyPlatformScan e plats).1.pos.x = e.pos.x := by
  induction plats with
  | nil => rfl
  | cons pl rest ih =>
    simp only [enemyPlatformScan]
    split_ifs <;> first | rfl | exact ih | simp

lemma enemyVerticalPass_posx (plats : List Platform) (width gGroundY : ℤ) (dt : ℚ)
    (e : Enemy) : (enemyVerticalPass plats width gGroundY dt e).pos.x = e.pos.x := by
  simp only [enemyVerticalPass]
  split_ifs <;> simp [enemyPlatformScan_posx]

/-- Claim C1, counterexample: with the round in the terminal game-over
state, one update tick deletes an existing active projectile outright
(instead of advancing and animating it) and deletes an existing active
opponent fragment (instead of keeping it animating). -/
theorem c1_counterexample :
    updateProjectiles true 80 (1/30)
      [{ pos := ⟨10, 5⟩, prevPos := ⟨10, 5⟩, dir := 1, active := true, frame := 0,
         isEnemy := false }] = [] ∧
    (updateDeathParticles (fun _ => 0) [] 80 24 23 0 (1/30) true [fallFrag]).1 = [] := by
  constructor
  · rfl
  · norm_num [updateDeathParticles, fallFrag]

/-- Claim C1, amended: once the round is in the game-over state, each
update tick flushes every projectile, removes every opponent-owned fragment
— only player fragments (source id 0) remain and keep being simulated — and
each opponent walks at 20 px/s toward the nearest screen edge (away from
the screen centre). -/
theorem c1_game_over_amended :
    (∀ (width : ℤ) (dt : ℚ) (ps : List Projectile),
        updateProjectiles true width dt ps = []) ∧
    (∀ (sqrtF : ℚ → ℚ) (plats : List Platform) (width height gGroundY : ℤ)
        (now dt : ℚ) (dps : List DeathParticle),
        ∀ q ∈ (updateDeathParticles sqrtF plats width height gGroundY now dt true dps).1,
          q.enemyID = 0) ∧
    (∀ (plats : List Platform) (width gGroundY : ℤ) (dt : ℚ) (e : Enemy),
        (stepEnemyGameOver plats width gGroundY dt e).pos.x =
          if e.pos.x - (width : ℚ) / 2 > 0 then e.pos.x + 20 * dt
          else e.pos.x - 20 * dt) := by
  refine ⟨fun width dt ps => rfl, ?_, ?_⟩
  · intro sqrtF plats width height gGroundY now dt dps q hq
    simp only [updateDeathParticles, if_true, List.mem_filter, List.mem_map] at hq
    obtain ⟨⟨a, ⟨p, hp, ha⟩, hq1⟩, hact⟩ := hq
    have hp0 : p.enemyID = 0 := by
      simpa using hp.2
    subst hq1
    subst ha
    by_cases hac : p.active
    · simp only [if_pos hac]
      rw [stepDeathParticle_enemyID]
      exact hp0
    · simp only [if_neg hac]
      exact hp0
  · intro plats width gGroundY dt e
    simp only [stepEnemyGameOver]
    split_ifs with hm <;> simp [enemyVerticalPass_posx]

set_option maxHeartbeats 2000000 in
lemma restFrag_fixed :
    (updateDeathParticles (fun _ => 0) [] 80 24 23 0 (1/30) true [restFrag]).1 =
      [restFrag] := by
  norm_num [updateDeathParticles, restFrag, stepDeathParticle, dpAirEmit, dpIntegrate,
    dpPlatformScan, dpPlatformExpiry, dpGroundPass, dpGroundRest, dpGroundSettle,
    dpGroundIdle, dpOffBottom, dpRollPass, dpRollTail, dpOffSides, ratTrunc]

/-- Witness for the amended C1 theorem: a concrete projectile list, a
concrete player fragment that survives the game-over sweep, and a concrete
opponent on the right half of the arena. -/
theorem c1_game_over_witness :
    updateProjectiles true 80 (1/30)
      [{ pos := ⟨10, 5⟩, prevPos := ⟨10, 5⟩, dir := 1, active := true, frame := 0,
         isEnemy := false }] = [] ∧
    restFrag ∈ (updateDeathParticles (fun _ => 0) [] 80 24 23 0 (1/30) true [restFrag]).1 ∧
    restFrag.enemyID = 0 ∧
    (stepEnemyGameOver [] 80 23 (1/30) walkEnemy).pos.x =
      (if walkEnemy.pos.x - (80 : ℚ) / 2 > 0 then walkEnemy.pos.x + 20 * (1/30)
       else walkEnemy.pos.x - 20 * (1/30)) :=
  ⟨c1_game_over_amended.1 80 (1/30) _,
   by rw [restFrag_fixed]; exact List.mem_singleton.mpr rfl,
   c1_game_over_amended.2.1 (fun _ => 0) [] 80 24 23 0 (1/30) [restFrag] restFrag
     (by rw [restFrag_fixed]; exact List.mem_singleton.mpr rfl),
   c1_game_over_amended.2.2 [] 80 23 (1/30) walkEnemy⟩

lemma bpIntegrate_keeps (dt : ℚ) (p : BloodParticle) :
    (bpIntegrate dt p).active = p.active ∧ (bpIntegrate dt p).lifetime = p.lifetime ∧
    (bpIntegrate dt p).enemyID = p.enemyID := by
  simp [bpIntegrate]

lemma bpFinish_active_iff (width height : ℤ) (dt : ℚ) (p : BloodParticle) :
    (bpFinish width height dt p).active = true ↔
      (p.active = true ∧ p.lifetime - dt > 0 ∧
       ¬(p.pos.x < -10 ∨ p.pos.x > (width : ℚ) + 10 ∨ p.pos.y > (height : ℚ))) := by
  simp only [bpFinish]
  split_ifs <;> simp_all <;> linarith

lemma bpFinish_pos (width height : ℤ) (dt : ℚ) (p : BloodParticle) :
    (bpFinish width height dt p).pos = p.pos := by
  simp only [bpFinish]
  split_ifs <;> simp

/-- Claim C4, counterexample: a concrete blood particle that reaches the
ground line commits its stain but stays active on that tick — it is not
deactivated by the ground contact. -/
theorem c4_counterexample :
    (stepBloodParticle [] 80 24 23 (1/30) bloodDrop [] []).2.1 = [(40, 3)] ∧
    (stepBloodParticle [] 80 24 23 (1/30) bloodDrop [] []).1.active = true := by
  norm_num [stepBloodParticle, bloodDrop, bpIntegrate, bpFindPlatform, bpFinish,
    markGroundRed, isTileUnderPlatform, tileInsert, ratTrunc]

/-- Claim C4, amended: on the tick a blood particle contacts a platform it
commits a platform stain (when the tile is in range) and is deactivated; on
the tick it reaches the ground line it commits a ground stain but is *not*
deactivated by the contact — it stays active until lifetime expiry or
viewport exit; with no contact it is deactivated exactly on lifetime expiry
or viewport exit. -/
theorem c4_blood_contact_amended (plats : List Platform) (width height gGroundY : ℤ)
    (dt : ℚ) (p : BloodParticle) (ground plat : List (ℤ × ℤ)) :
    (∀ i : ℕ, bpFindPlatform (bpIntegrate dt p) plats.enum = some i →
      (stepBloodParticle plats width height gGroundY dt p ground plat).1.active = false ∧
      ((0 ≤ ratTrunc (bpIntegrate dt p).pos.x ∧
          ratTrunc (bpIntegrate dt p).pos.x < width) →
        (stepBloodParticle plats width height gGroundY dt p ground plat).2.2 =
          markPlatformRed (i : ℤ) (ratTrunc (bpIntegrate dt p).pos.x) p.enemyID plat)) ∧
    (bpFindPlatform (bpIntegrate dt p) plats.enum = none →
      (bpIntegrate dt p).pos.y ≥ (gGroundY : ℚ) →
      (0 ≤ ratTrunc (bpIntegrate dt p).pos.x ∧
        ratTrunc (bpIntegrate dt p).pos.x < width) →
      (stepBloodParticle plats width height gGroundY dt p ground plat).2.1 =
        markGroundRed width plats (ratTrunc (bpIntegrate dt p).pos.x) p.enemyID
          false ground ∧
      ((stepBloodParticle plats width height gGroundY dt p ground plat).1.active = true ↔
        (p.active = true ∧ p.lifetime - dt > 0 ∧
         ¬((bpIntegrate dt p).pos.x < -10 ∨ (bpIntegrate dt p).pos.x > (width : ℚ) + 10 ∨
           (bpIntegrate dt p).pos.y > (height : ℚ))))) ∧
    (bpFindPlatform (bpIntegrate dt p) plats.enum = none →
      ¬(bpIntegrate dt p).pos.y ≥ (gGroundY : ℚ) →
      (stepBloodParticle plats width height gGroundY dt p ground plat).2.1 = ground ∧
      (stepBloodParticle plats width height gGroundY dt p ground plat).2.2 = plat ∧
      ((stepBloodParticle plats width height gGroundY dt p ground plat).1.active = true ↔
        (p.active = true ∧ p.lifetime - dt > 0 ∧
         ¬((bpIntegrate dt p).pos.x < -10 ∨ (bpIntegrate dt p).pos.x > (width : ℚ) + 10 ∨
           (bpIntegrate dt p).pos.y > (height : ℚ))))) := by
  obtain ⟨ka, kl, ke⟩ := bpIntegrate_keeps dt p
  refine ⟨?_, ?_, ?_⟩
  · intro i hfound
    simp only [stepBloodParticle, hfound]
    constructor
    · rw [Bool.eq_false_iff]
      intro hT
      rw [bpFinish_active_iff] at hT
      simp at hT
    · intro hrange
      rw [if_pos hrange, ke]
  · intro hfound hy hrange
    simp only [stepBloodParticle, hfound]
    constructor
    · rw [if_pos ⟨hy, hrange⟩, ke]
    · rw [bpFinish_active_iff, ka, kl]
  · intro hfound hy
    simp only [stepBloodParticle, hfound]
    refine ⟨?_, ?_, ?_⟩
    · rw [if_neg]
      intro hcontra
      exact hy hcontra.1
    · trivial
    · rw [bpFinish_active_iff, ka, kl]

/-- Witness for the amended C4 theorem at the concrete particle
`bloodDrop` (ground-contact case). -/
theorem c4_blood_contact_witness :
    (bpFindPlatform (bpIntegrate (1/30) bloodDrop) ([] : List Platform).enum = none ∧
      (bpIntegrate (1/30) bloodDrop).pos.y ≥ ((23 : ℤ) : ℚ) ∧
      0 ≤ ratTrunc (bpIntegrate (1/30) bloodDrop).pos.x ∧
      ratTrunc (bpIntegrate (1/30) bloodDrop).pos.x < 80) ∧
    ((stepBloodParticle [] 80 24 23 (1/30) bloodDrop [] []).2.1 =
      markGroundRed 80 [] (ratTrunc (bpIntegrate (1/30) bloodDrop).pos.x)
        bloodDrop.enemyID false [] ∧
     ((stepBloodParticle [] 80 24 23 (1/30) bloodDrop [] []).1.active = true ↔
       (bloodDrop.active = true ∧ bloodDrop.lifetime - 1/30 > 0 ∧
        ¬((bpIntegrate (1/30) bloodDrop).pos.x < -10 ∨
          (bpIntegrate (1/30) bloodDrop).pos.x > (80 : ℚ) + 10 ∨
          (bpIntegrate (1/30) bloodDrop).pos.y > (24 : ℚ))))) :=
  ⟨⟨rfl, by norm_num [bpIntegrate, bloodDrop], by norm_num [bpIntegrate, bloodDrop, ratTrunc],
    by norm_num [bpIntegrate, bloodDrop, ratTrunc]⟩,
   (c4_blood_contact_amended [] 80 24 23 (1/30) bloodDrop [] []).2.1 rfl
     (by norm_num [bpIntegrate, bloodDrop])
     ⟨by norm_num [bpIntegrate, bloodDrop, ratTrunc],
      by norm_num [bpIntegrate, bloodDrop, ratTrunc]⟩⟩

/-- Claim C5, counterexample: the claim says the one-in-ten decapitation
branch triggers on player defeat too.  But the player-defeat path calls
`createPlayerDeathParticles`, which contains no decapitation branch and
consumes no decapitation roll: even with randomness that would satisfy any
`< 0.1` test (every roll is 0 here, and 0 < 1/10), a concrete player defeat
produces the full 7-piece burst and no corpse. -/
theorem c5_counterexample :
    (0 : ℚ) < 1/10 ∧
    (onPlayerDefeat (fun _ => 0) (fun _ => 0) (fun _ => 0) 0 (fun _ => zeroPieceRand)
        cexGame).corpses = [] ∧
    (onPlayerDefeat (fun _ => 0) (fun _ => 0) (fun _ => 0) 0 (fun _ => zeroPieceRand)
        cexGame).deathParticles.length = 7 := by
  refine ⟨by norm_num, rfl, ?_⟩
  simp [onPlayerDefeat, cexGame, createPlayerDeathParticles, burstPieces,
    playerPiecesRight]

/-- Claim C5, amended: only an opponent defeat runs the decapitation roll —
with `decapRoll < 0.1` the branch triggers, spawning exactly one head
fragment (rolling, head-flagged) and exactly one corpse, both owned by the
freshly reserved source id, which is then incremented.  A player defeat
always spawns the full 7-piece burst under the reserved player id 0 and
never spawns a corpse. -/
theorem c5_decap_amended :
    (∀ (cosF sinF sqrtF : ℚ → ℚ) (now : ℚ) (plats : List Platform) (e : Enemy)
        (nextID : ℤ) (decapRoll : ℚ) (dr : DecapRand) (rands : ℕ → PieceRand),
        decapRoll < 1/10 →
        (createDeathParticles cosF sinF sqrtF now plats e nextID decapRoll dr
            rands).1.length = 1 ∧
        (∀ h ∈ (createDeathParticles cosF sinF sqrtF now plats e nextID decapRoll dr
            rands).1, h.isHead = true ∧ h.isRolling = true ∧ h.enemyID = nextID) ∧
        (createDeathParticles cosF sinF sqrtF now plats e nextID decapRoll dr
            rands).2.1.length = 1 ∧
        (∀ c ∈ (createDeathParticles cosF sinF sqrtF now plats e nextID decapRoll dr
            rands).2.1, c.enemyID = nextID) ∧
        (createDeathParticles cosF sinF sqrtF now plats e nextID decapRoll dr
            rands).2.2.1 = nextID + 1) ∧
    (∀ (cosF sinF sqrtF : ℚ → ℚ) (now : ℚ) (player : Player) (rands : ℕ → PieceRand),
        (createPlayerDeathParticles cosF sinF sqrtF now player rands).1.length = 7 ∧
        ∀ q ∈ (createPlayerDeathParticles cosF sinF sqrtF now player rands).1,
          q.enemyID = 0) ∧
    (∀ (cosF sinF sqrtF : ℚ → ℚ) (now : ℚ) (rands : ℕ → PieceRand) (g : GameState),
        (onPlayerDefeat cosF sinF sqrtF now rands g).corpses = g.corpses ∧
        (onPlayerDefeat cosF sinF sqrtF now rands g).gameOver = true) := by
  refine ⟨?_, ?_, ?_⟩
  · intro cosF sinF sqrtF now plats e nextID decapRoll dr rands hroll
    simp only [createDeathParticles, if_pos hroll, createDecap]
    refine ⟨by simp, ?_, by simp, ?_, by simp⟩
    · intro h hh
      simp only [List.mem_singleton] at hh
      subst hh
      exact ⟨rfl, rfl, rfl⟩
    · intro c hc
      simp only [List.mem_singleton] at hc
      subst hc
      rfl
  · intro cosF sinF sqrtF now player rands
    constructor
    · simp only [createPlayerDeathParticles, burstPieces]
      split_ifs <;> simp [playerPiecesRight, playerPiecesLeft]
    · intro q hq
      simp only [createPlayerDeathParticles, burstPieces, List.mem_map] at hq
      obtain ⟨ir, _, rfl⟩ := hq
      rfl
  · intro cosF sinF sqrtF now rands g
    exact ⟨rfl, rfl⟩

/-- Witness for the amended C5 theorem: decapitation roll 0 on a concrete
opponent, and a concrete player defeat. -/
theorem c5_decap_witness :
    (0 : ℚ) < 1/10 ∧
    (createDeathParticles (fun _ => 0) (fun _ => 0) (fun _ => 0) 0 [] walkEnemy 5 0
        zeroDecapRand (fun _ => zeroPieceRand)).1.length = 1 ∧
    (createDeathParticles (fun _ => 0) (fun _ => 0) (fun _ => 0) 0 [] walkEnemy 5 0
        zeroDecapRand (fun _ => zeroPieceRand)).2.1.length = 1 ∧
    (createDeathParticles (fun _ => 0) (fun _ => 0) (fun _ => 0) 0 [] walkEnemy 5 0
        zeroDecapRand (fun _ => zeroPieceRand)).2.2.1 = 5 + 1 ∧
    (createPlayerDeathParticles (fun _ => 0) (fun _ => 0) (fun _ => 0) 0 cexGame.player
        (fun _ => zeroPieceRand)).1.length = 7 := by
  have h1 := c5_decap_amended.1 (fun _ => 0) (fun _ => 0) (fun _ => 0) 0 [] walkEnemy 5 0
    zeroDecapRand (fun _ => zeroPieceRand) (by norm_num)
  have h2 := c5_decap_amended.2.1 (fun _ => 0) (fun _ => 0) (fun _ => 0) 0 cexGame.player
    (fun _ => zeroPieceRand)
  exact ⟨by norm_num, h1.1, h1.2.2.1, h1.2.2.2.2, h2.1⟩

/-- Claim C6: with dt at most the 0.1 s clamp of the main loop, an active
player projectile whose previous and current positions straddle an active
opponent's bounding box — neither endpoint box overlapping it — is still
detected by the interpolated sample points of the swept test, and the
resolver then consumes the projectile, kills the opponent, adds 10 score
and counts the defeat.  (The clamp itself: `clampDt dt ≤ 1/10` always.) -/
theorem c6_swept_collision (dt : ℚ) (p : Projectile) (e : Enemy) (score defeated : ℤ)
    (hdt0 : 0 ≤ dt) (hdt : dt ≤ 1/10)
    (hact : p.active = true) (hpl : p.isEnemy = false)
    (hdir : p.dir = 1 ∨ p.dir = -1)
    (hkin : p.pos.x = p.prevPos.x + (p.dir : ℚ) * 200 * dt)
    (hy : p.pos.y = p.prevPos.y)
    (hew : e.width = 4) (heh : e.height = 3) (heact : e.active = true)
    (hyov : p.prevPos.y < e.pos.y + (e.height : ℚ) ∧ p.prevPos.y + 1 > e.pos.y)
    (hstraddle :
      (p.prevPos.x + 1 ≤ e.pos.x ∧ e.pos.x + (e.width : ℚ) ≤ p.pos.x) ∨
      (p.pos.x + 1 ≤ e.pos.x ∧ e.pos.x + (e.width : ℚ) ≤ p.prevPos.x)) :
    projectileHitsEnemy p e = true ∧
    resolveProjEnemies p [e] score defeated =
      ({ p with active := false }, [{ e with active := false }],
       score + 10, defeated + 1) ∧
    (∀ raw : ℚ, clampDt raw ≤ 1/10) := by
  have hew4 : (e.width : ℚ) = 4 := by rw [hew]; norm_num
  have hk : ∃ k : ℕ, k ∈ List.range' 1 4 ∧
      (p.prevPos.x + (p.pos.x - p.prevPos.x) * ((k : ℚ) / 5) < e.pos.x + (e.width : ℚ) ∧
       p.prevPos.x + (p.pos.x - p.prevPos.x) * ((k : ℚ) / 5) + 1 > e.pos.x) := by
    rcases hstraddle with ⟨hL, hR⟩ | ⟨hL, hR⟩
    · rw [hew4] at hR ⊢
      have hD5 : 5 ≤ p.pos.x - p.prevPos.x := by linarith
      have hD20 : p.pos.x - p.prevPos.x ≤ 20 := by
        rcases hdir with h1 | h1 <;> rw [hkin, h1] <;> push_cast <;> linarith
      by_cases h1 : p.prevPos.x + (p.pos.x - p.prevPos.x) * ((1 : ℚ) / 5) > e.pos.x - 1
      · exact ⟨1, by decide, by push_cast; constructor <;> linarith⟩
      · push_neg at h1
        by_cases h2 : p.prevPos.x + (p.pos.x - p.prevPos.x) * ((2 : ℚ) / 5) > e.pos.x - 1
        · exact ⟨2, by decide, by push_cast; constructor <;> linarith⟩
        · push_neg at h2
          by_cases h3 : p.prevPos.x + (p.pos.x - p.prevPos.x) * ((3 : ℚ) / 5) > e.pos.x - 1
          · exact ⟨3, by decide, by push_cast; constructor <;> linarith⟩
          · push_neg at h3
            by_cases h4 :
                p.prevPos.x + (p.pos.x - p.prevPos.x) * ((4 : ℚ) / 5) > e.pos.x - 1
            · exact ⟨4, by decide, by push_cast; constructor <;> linarith⟩
            · push_neg at h4
              exact absurd hR (by push_cast at h4 ⊢; linarith)
    · rw [hew4] at hR ⊢
      have hD5 : p.pos.x - p.prevPos.x ≤ -5 := by linarith
      have hD20 : -20 ≤ p.pos.x - p.prevPos.x := by
        rcases hdir with h1 | h1 <;> rw [hkin, h1] <;> push_cast <;> linarith
      by_cases h1 : p.prevPos.x + (p.pos.x - p.prevPos.x) * ((1 : ℚ) / 5) < e.pos.x + 4
      · exact ⟨1, by decide, by push_cast; constructor <;> linarith⟩
      · push_neg at h1
        by_cases h2 : p.prevPos.x + (p.pos.x - p.prevPos.x) * ((2 : ℚ) / 5) < e.pos.x + 4
        · exact ⟨2, by decide, by push_cast; constructor <;> linarith⟩
        · push_neg at h2
          by_cases h3 : p.prevPos.x + (p.pos.x - p.prevPos.x) * ((3 : ℚ) / 5) < e.pos.x + 4
          · exact ⟨3, by decide, by push_cast; constructor <;> linarith⟩
          · push_neg at h3
            by_cases h4 :
                p.prevPos.x + (p.pos.x - p.prevPos.x) * ((4 : ℚ) / 5) < e.pos.x + 4
            · exact ⟨4, by decide, by push_cast; constructor <;> linarith⟩
            · push_neg at h4
              exact absurd hL (by push_cast at h4 ⊢; linarith)
  have hhit : projectileHitsEnemy p e = true := by
    obtain ⟨k, hkmem, hk1, hk2⟩ := hk
    have hC : ((List.range' 1 4).any (fun k =>
        projBoxHit (p.prevPos.x + (p.pos.x - p.prevPos.x) * ((k : ℚ) / 5))
          (p.prevPos.y + (p.pos.y - p.prevPos.y) * ((k : ℚ) / 5)) e)) = true := by
      rw [List.any_eq_true]
      refine ⟨k, hkmem, ?_⟩
      rw [projBoxHit, decide_eq_true_iff]
      have hdy : p.pos.y - p.prevPos.y = 0 := by rw [hy]; ring
      rw [hdy]
      refine ⟨hk1, hk2, by simpa using hyov.1, by simpa using hyov.2⟩
    rw [projectileHitsEnemy, hC]
    simp
  refine ⟨hhit, ?_, ?_⟩
  · simp only [resolveProjEnemies]
    rw [if_pos ⟨heact, hhit⟩]
  · intro raw
    rw [clampDt]
    split_ifs with h
    · norm_num
    · push_neg at h
      exact h

/-- Witness for C6 at the concrete projectile `sweptProj` and opponent
`sweptEnemy`: the endpoints x = 0 and x = 20 straddle the opponent box over
[10, 14] without either endpoint overlapping it. -/
theorem c6_swept_collision_witness :
    (0 ≤ (1/10 : ℚ) ∧ sweptProj.active = true ∧ sweptProj.isEnemy = false ∧
      sweptProj.pos.x = sweptProj.prevPos.x + (sweptProj.dir : ℚ) * 200 * (1/10) ∧
      sweptProj.pos.y = sweptProj.prevPos.y ∧
      sweptProj.prevPos.x + 1 ≤ sweptEnemy.pos.x ∧
      sweptEnemy.pos.x + (sweptEnemy.width : ℚ) ≤ sweptProj.pos.x) ∧
    projectileHitsEnemy sweptProj sweptEnemy = true ∧
    resolveProjEnemies sweptProj [sweptEnemy] 0 0 =
      ({ sweptProj with active := false }, [{ sweptEnemy with active := false }],
       0 + 10, 0 + 1) := by
  have h := c6_swept_collision (1/10) sweptProj sweptEnemy 0 0 (by norm_num) le_rfl
    (by decide) (by decide) (Or.inl (by decide))
    (by norm_num [sweptProj]) (by norm_num [sweptProj])
    (by decide) (by decide) (by decide)
    ⟨by norm_num [sweptProj, sweptEnemy], by norm_num [sweptProj, sweptEnemy]⟩
    (Or.inl ⟨by norm_num [sweptProj, sweptEnemy], by norm_num [sweptProj, sweptEnemy]⟩)
  exact ⟨⟨by norm_num, by decide, by decide, by norm_num [sweptProj],
    by norm_num [sweptProj], by norm_num [sweptProj, sweptEnemy],
    by norm_num [sweptProj, sweptEnemy]⟩, h.1, h.2.1⟩

lemma mem_activeEnemyIDs_iff (dps : List DeathParticle) (bps : List BloodParticle)
    (id : ℤ) : id ∈ activeEnemyIDs dps bps ↔ idHasActiveParticle dps bps id := by
  simp only [activeEnemyIDs, idHasActiveParticle, List.mem_append, List.mem_map,
    List.mem_filter]
  constructor
  · rintro (⟨q, ⟨hq, ha⟩, he⟩ | ⟨b, ⟨hb, ha⟩, he⟩)
    · exact Or.inl ⟨q, hq, by simpa using ha, he⟩
    · exact Or.inr ⟨b, hb, by simpa using ha, he⟩
  · rintro (⟨q, hq, ha, he⟩ | ⟨b, hb, ha, he⟩)
    · exact Or.inl ⟨q, ⟨hq, by simpa using ha⟩, he⟩
    · exact Or.inr ⟨b, ⟨hb, by simpa using ha⟩, he⟩

/-- Claim C7: immediately after the cleanup sweep, every remaining ground
and platform stain entry references a source id owning at least one active
fragment or blood particle, and for an id with no active particles no entry
referencing it remains. -/
theorem c7_stain_cleanup (dps : List DeathParticle) (bps : List BloodParticle)
    (ground plat : List (ℤ × ℤ)) :
    (∀ kv ∈ (checkAndClearRedTiles dps bps ground plat).1,
        idHasActiveParticle dps bps kv.2) ∧
    (∀ kv ∈ (checkAndClearRedTiles dps bps ground plat).2,
        idHasActiveParticle dps bps kv.2) ∧
    (∀ id : ℤ, ¬idHasActiveParticle dps bps id →
      (∀ kv ∈ (checkAndClearRedTiles dps bps ground plat).1, kv.2 ≠ id) ∧
      (∀ kv ∈ (checkAndClearRedTiles dps bps ground plat).2, kv.2 ≠ id)) := by
  refine ⟨?_, ?_, ?_⟩
  · intro kv hkv
    rw [checkAndClearRedTiles, List.mem_filter] at hkv
    exact (mem_activeEnemyIDs_iff dps bps kv.2).mp (by simpa using hkv.2)
  · intro kv hkv
    rw [checkAndClearRedTiles, List.mem_filter] at hkv
    exact (mem_activeEnemyIDs_iff dps bps kv.2).mp (by simpa using hkv.2)
  · intro id hid
    constructor <;> intro kv hkv heq <;>
      rw [checkAndClearRedTiles, List.mem_filter] at hkv <;>
      exact hid (heq ▸ (mem_activeEnemyIDs_iff dps bps kv.2).mp (by simpa using hkv.2))

/-- Witness for C7: with one active opponent fragment owning id 1, the
sweep keeps the id-1 ground entry and that id indeed owns an active
particle. -/
theorem c7_stain_cleanup_witness :
    ((5, 1) ∈ (checkAndClearRedTiles [fallFrag] [] [(5, 1), (6, 2)] []).1) ∧
    idHasActiveParticle [fallFrag] [] 1 := by
  have hmem : ((5, 1) : ℤ × ℤ) ∈ (checkAndClearRedTiles [fallFrag] [] [(5, 1), (6, 2)] []).1 := by
    simp [checkAndClearRedTiles, activeEnemyIDs, fallFrag]
  exact ⟨hmem, (c7_stain_cleanup [fallFrag] [] [(5, 1), (6, 2)] []).1 (5, 1) hmem⟩

lemma corpsePlatformScan_keeps (c : Corpse) (plats : List Platform) :
    (corpsePlatformScan c plats).1.endTime = c.endTime ∧
    (corpsePlatformScan c plats).1.enemyID = c.enemyID ∧
    (corpsePlatformScan c plats).1.facing = c.facing ∧
    (corpsePlatformScan c plats).1.active = c.active := by
  induction plats with
  | nil => exact ⟨rfl, rfl, rfl, rfl⟩
  | cons pl rest ih =>
    simp only [corpsePlatformScan]
    split_ifs <;> first | exact ih | exact ⟨rfl, rfl, rfl, rfl⟩ | simp

lemma corpseDirStage_keeps (now : ℚ) (cr : CorpseRand) (c : Corpse) :
    (corpseDirStage now cr c).endTime = c.endTime ∧
    (corpseDirStage now cr c).enemyID = c.enemyID ∧
    (corpseDirStage now cr c).facing = c.facing ∧
    (corpseDirStage now cr c).active = c.active := by
  simp only [corpseDirStage]
  split_ifs <;> simp

lemma corpseMovePhys_keeps (plats : List Platform) (width gGroundY : ℤ) (dt : ℚ)
    (c1 : Corpse) :
    (corpseMovePhys plats width gGroundY dt c1).endTime = c1.endTime ∧
    (corpseMovePhys plats width gGroundY dt c1).enemyID = c1.enemyID ∧
    (corpseMovePhys plats width gGroundY dt c1).facing = c1.facing ∧
    (corpseMovePhys plats width gGroundY dt c1).active = c1.active := by
  simp only [corpseMovePhys]
  split_ifs <;> simp [corpsePlatformScan_keeps]

lemma corpseMove_keeps (plats : List Platform) (width gGroundY : ℤ) (now dt : ℚ)
    (cr : CorpseRand) (c : Corpse) :
    (corpseMove plats width gGroundY now dt cr c).endTime = c.endTime ∧
    (corpseMove plats width gGroundY now dt cr c).enemyID = c.enemyID ∧
    (corpseMove plats width gGroundY now dt cr c).facing = c.facing ∧
    (corpseMove plats width gGroundY now dt cr c).active = c.active := by
  obtain ⟨d1, d2, d3, d4⟩ := corpseDirStage_keeps now cr c
  obtain ⟨p1, p2, p3, p4⟩ := corpseMovePhys_keeps plats width gGroundY dt
    (corpseDirStage now cr c)
  exact ⟨p1.trans d1, p2.trans d2, p3.trans d3, p4.trans d4⟩

lemma createDeathParticlesAt_shape (cosF sinF sqrtF : ℚ → ℚ) (now : ℚ) (pos : Vec2)
    (facing enemyID : ℤ) (wop : Bool) (pr : ℕ → PieceRand) :
    (createDeathParticlesAt cosF sinF sqrtF now pos facing enemyID wop pr).1.length = 6 ∧
    ∀ q ∈ (createDeathParticlesAt cosF sinF sqrtF now pos facing enemyID wop pr).1,
      q.enemyID = enemyID := by
  constructor
  · simp only [createDeathParticlesAt, burstPieces]
    split_ifs <;> simp [enemyPiecesRight, enemyPiecesLeft]
  · intro q hq
    simp only [createDeathParticlesAt, burstPieces, List.mem_map] at hq
    obtain ⟨ir, _, rfl⟩ := hq
    rfl

lemma stepCorpse_inactive (cosF sinF sqrtF : ℚ → ℚ) (plats : List Platform)
    (width gGroundY : ℤ) (now dt : ℚ) (cr : CorpseRand) (pr : ℕ → PieceRand)
    (c : Corpse) (h : c.active = false) :
    stepCorpse cosF sinF sqrtF plats width gGroundY now dt cr pr c = (c, [], []) := by
  simp [stepCorpse, h]

lemma stepCorpse_burst_inactive (cosF sinF sqrtF : ℚ → ℚ) (plats : List Platform)
    (width gGroundY : ℤ) (now dt : ℚ) (cr : CorpseRand) (pr : ℕ → PieceRand)
    (c : Corpse)
    (h : (stepCorpse cosF sinF sqrtF plats width gGroundY now dt cr pr c).2.1 ≠ []) :
    (stepCorpse cosF sinF sqrtF plats width gGroundY now dt cr pr c).1.active = false := by
  by_cases hact : c.active
  · simp only [stepCorpse, if_pos hact] at h ⊢
    split_ifs at h ⊢ <;> simp_all
  · rw [stepCorpse_inactive cosF sinF sqrtF plats width gGroundY now dt cr pr c
      (by simpa using hact)] at h ⊢
    exact absurd rfl h

lemma stepCorpse_keeps_inactive (cosF sinF sqrtF : ℚ → ℚ) (plats : List Platform)
    (width gGroundY : ℤ) (now dt : ℚ) (cr : CorpseRand) (pr : ℕ → PieceRand)
    (c : Corpse) (h : c.active = false) :
    (stepCorpse cosF sinF sqrtF plats width gGroundY now dt cr pr c).1.active = false := by
  rw [stepCorpse_inactive cosF sinF sqrtF plats width gGroundY now dt cr pr c h]
  exact h

lemma corpseRunBursts_inactive (cosF sinF sqrtF : ℚ → ℚ) (plats : List Platform)
    (width gGroundY : ℤ) (steps : List (ℚ × ℚ × CorpseRand × (ℕ → PieceRand)))
    (c : Corpse) (h : c.active = false) :
    corpseRunBursts cosF sinF sqrtF plats width gGroundY steps c = 0 := by
  induction steps generalizing c with
  | nil => rfl
  | cons s rest ih =>
    simp only [corpseRunBursts]
    rw [stepCorpse_inactive cosF sinF sqrtF plats width gGroundY s.1 s.2.1 s.2.2.1
      s.2.2.2 c h]
    simp [ih c h]

/-- Claim C8: an active corpse past its expiry deadline converts into
exactly one 6-piece burst at its current (post-movement) position, tagged
with the corpse's own source id, and is deactivated in the same tick; an
inactive corpse is never updated again; over any run of ticks a corpse
produces at most one burst. -/
theorem c8_corpse_single_burst (cosF sinF sqrtF : ℚ → ℚ) (plats : List Platform)
    (width gGroundY : ℤ) :
    (∀ (now dt : ℚ) (cr : CorpseRand) (pr : ℕ → PieceRand) (c : Corpse),
      c.active = true → now > c.endTime →
      (stepCorpse cosF sinF sqrtF plats width gGroundY now dt cr pr c).1.active = false ∧
      (stepCorpse cosF sinF sqrtF plats width gGroundY now dt cr pr c).1.enemyID =
        c.enemyID ∧
      (stepCorpse cosF sinF sqrtF plats width gGroundY now dt cr pr c).2.1 =
        (createDeathParticlesAt cosF sinF sqrtF now
          (stepCorpse cosF sinF sqrtF plats width gGroundY now dt cr pr c).1.pos
          (stepCorpse cosF sinF sqrtF plats width gGroundY now dt cr pr c).1.facing
          (stepCorpse cosF sinF sqrtF plats width gGroundY now dt cr pr c).1.enemyID
          (stepCorpse cosF sinF sqrtF plats width gGroundY now dt cr pr c).1.wasOnPlatform
          pr).1 ∧
      (stepCorpse cosF sinF sqrtF plats width gGroundY now dt cr pr c).2.1.length = 6 ∧
      (∀ q ∈ (stepCorpse cosF sinF sqrtF plats width gGroundY now dt cr pr c).2.1,
        q.enemyID = c.enemyID)) ∧
    (∀ (now dt : ℚ) (cr : CorpseRand) (pr : ℕ → PieceRand) (c : Corpse),
      c.active = false →
      stepCorpse cosF sinF sqrtF plats width gGroundY now dt cr pr c = (c, [], [])) ∧
    (∀ (steps : List (ℚ × ℚ × CorpseRand × (ℕ → PieceRand))) (c : Corpse),
      corpseRunBursts cosF sinF sqrtF plats width gGroundY steps c ≤ 1) := by
  refine ⟨?_, ?_, ?_⟩
  · intro now dt cr pr c hact hexp
    have hkeep := corpseMove_keeps plats width gGroundY now dt cr c
    have hET : (corpseMove plats width gGroundY now dt cr c).endTime = c.endTime :=
      hkeep.1
    simp only [stepCorpse, if_pos hact]
    by_cases hspray :
        now - (corpseMove plats width gGroundY now dt cr c).lastBloodEmit ≥ 2/25
    · simp only [if_pos hspray]
      rw [if_pos (by simpa [hET] using hexp)]
      refine ⟨rfl, hkeep.2.1, rfl, ?_, ?_⟩
      · exact (createDeathParticlesAt_shape cosF sinF sqrtF now _ _ _ _ pr).1
      · intro q hq
        have := (createDeathParticlesAt_shape cosF sinF sqrtF now _ _ _ _ pr).2 q hq
        rw [this]
        exact hkeep.2.1
    · simp only [if_neg hspray]
      rw [if_pos (by simpa [hET] using hexp)]
      refine ⟨rfl, hkeep.2.1, rfl, ?_, ?_⟩
      · exact (createDeathParticlesAt_shape cosF sinF sqrtF now _ _ _ _ pr).1
      · intro q hq
        have := (createDeathParticlesAt_shape cosF sinF sqrtF now _ _ _ _ pr).2 q hq
        rw [this]
        exact hkeep.2.1
  · intro now dt cr pr c h
    exact stepCorpse_inactive cosF sinF sqrtF plats width gGroundY now dt cr pr c h
  · intro steps c
    induction steps generalizing c with
    | nil => exact Nat.zero_le 1
    | cons s rest ih =>
      simp only [corpseRunBursts]
      by_cases hb :
          (stepCorpse cosF sinF sqrtF plats width gGroundY s.1 s.2.1 s.2.2.1 s.2.2.2
            c).2.1 = []
      · rw [if_pos hb]
        simpa using ih _
      · rw [if_neg hb]
        have hin := stepCorpse_burst_inactive cosF sinF sqrtF plats width gGroundY s.1
          s.2.1 s.2.2.1 s.2.2.2 c hb
        rw [corpseRunBursts_inactive cosF sinF sqrtF plats width gGroundY rest _ hin]

/-- Witness for C8 at the concrete corpse `cexCorpse` at time 4 (past its
deadline 3). -/
theorem c8_corpse_single_burst_witness :
    cexCorpse.active = true ∧ (4 : ℚ) > cexCorpse.endTime ∧
    (stepCorpse (fun _ => 0) (fun _ => 0) (fun _ => 0) [] 80 23 4 (1/30) cexCR
        (fun _ => zeroPieceRand) cexCorpse).1.active = false ∧
    (stepCorpse (fun _ => 0) (fun _ => 0) (fun _ => 0) [] 80 23 4 (1/30) cexCR
        (fun _ => zeroPieceRand) cexCorpse).2.1.length = 6 ∧
    corpseRunBursts (fun _ => 0) (fun _ => 0) (fun _ => 0) [] 80 23
      [(4, 1/30, cexCR, fun _ => zeroPieceRand)] cexCorpse ≤ 1 := by
  have h := c8_corpse_single_burst (fun _ => 0) (fun _ => 0) (fun _ => 0) [] 80 23
  have h1 := h.1 4 (1/30) cexCR (fun _ => zeroPieceRand) cexCorpse (by decide)
    (by norm_num [cexCorpse])
  exact ⟨by decide, by norm_num [cexCorpse], h1.1, h1.2.2.2.1,
    h.2.2 [(4, 1/30, cexCR, fun _ => zeroPieceRand)] cexCorpse⟩

/-- Claim C9, counterexample: neither the menu-start reset nor the
game-over restart clears the corpse list — after both, the concrete active
corpse is still there, so not every entity collection is emptied. -/
theorem c9_counterexample :
    (startGameReset 0 [] corpseGame).corpses = [cexCorpse] ∧
    (restartReset 0 [] corpseGame).corpses = [cexCorpse] ∧
    cexCorpse.active = true :=
  ⟨rfl, rfl, by decide⟩

/-- Claim C9, amended: the round start and restart transitions clear the
projectile, opponent, fragment and blood-particle collections, both stain
maps, the score, the defeat counter and the spawn counter — but the corpse
collection is left untouched by both resets. -/
theorem c9_reset_amended (now : ℚ) (newPlatforms : List Platform) (g : GameState) :
    ((startGameReset now newPlatforms g).projectiles = [] ∧
     (startGameReset now newPlatforms g).enemies = [] ∧
     (startGameReset now newPlatforms g).deathParticles = [] ∧
     (startGameReset now newPlatforms g).bloodParticles = [] ∧
     (startGameReset now newPlatforms g).redGroundTiles = [] ∧
     (startGameReset now newPlatforms g).redPlatformTiles = [] ∧
     (startGameReset now newPlatforms g).score = 0 ∧
     (startGameReset now newPlatforms g).enemiesDefeated = 0 ∧
     (startGameReset now newPlatforms g).enemySpawnCounter = 0 ∧
     (startGameReset now newPlatforms g).gameOver = false ∧
     (startGameReset now newPlatforms g).corpses = g.corpses) ∧
    ((restartReset now newPlatforms g).projectiles = [] ∧
     (restartReset now newPlatforms g).enemies = [] ∧
     (restartReset now newPlatforms g).deathParticles = [] ∧
     (restartReset now newPlatforms g).bloodParticles = [] ∧
     (restartReset now newPlatforms g).redGroundTiles = [] ∧
     (restartReset now newPlatforms g).redPlatformTiles = [] ∧
     (restartReset now newPlatforms g).score = 0 ∧
     (restartReset now newPlatforms g).enemiesDefeated = 0 ∧
     (restartReset now newPlatforms g).enemySpawnCounter = 0 ∧
     (restartReset now newPlatforms g).gameOver = false ∧
     (restartReset now newPlatforms g).corpses = g.corpses) :=
  ⟨⟨rfl, rfl, rfl, rfl, rfl, rfl, rfl, rfl, rfl, rfl, rfl⟩,
   ⟨rfl, rfl, rfl, rfl, rfl, rfl, rfl, rfl, rfl, rfl, rfl⟩⟩

lemma spawnRun_get (width gGroundY : ℤ) (c : ℕ) (rolls : List ℚ) (i : ℕ)
    (h : i < (spawnRun width gGroundY c rolls).length) :
    ((spawnRun width gGroundY c rolls).get ⟨i, h⟩).canShoot = ((c + i) % 2 == 1) := by
  induction rolls generalizing c i with
  | nil => exact absurd h (by simp [spawnRun])
  | cons r rs ih =>
    cases i with
    | zero =>
      show (spawnEnemy width gGroundY c r).canShoot = ((c + 0) % 2 == 1)
      rw [Nat.add_zero]
      simp only [spawnEnemy]
      split_ifs <;> rfl
    | succ n =>
      have heq : c + 1 + n = c + (n + 1) := by omega
      show ((spawnRun width gGroundY (c + 1) rs).get ⟨n, _⟩).canShoot = _
      rw [ih (c + 1) n (by simpa [spawnRun] using h), heq]

/-- Claim C10: counting in-game spawns from a freshly reset spawn counter,
the i-th spawned opponent (0-indexed) can shoot exactly when i is odd —
the 1st, 3rd, 5th, ... cannot shoot and the 2nd, 4th, 6th, ... can —
independently of the side rolls and of every other random draw. -/
theorem c10_spawn_alternation (width gGroundY : ℤ) (rolls : List ℚ) (i : ℕ)
    (h : i < (spawnRun width gGroundY 0 rolls).length) :
    ((spawnRun width gGroundY 0 rolls).get ⟨i, h⟩).canShoot = (i % 2 == 1) := by
  rw [spawnRun_get]
  rw [Nat.zero_add]

/-- Witness for C10: of four consecutive spawns, the second (index 1) can
shoot. -/
theorem c10_spawn_alternation_witness :
    ((spawnRun 80 23 0 [0, 1, 0, 1]).get
        ⟨1, by norm_num [spawnRun, spawnEnemy]⟩).canShoot = ((1 : ℕ) % 2 == 1) :=
  c10_spawn_alternation 80 23 [0, 1, 0, 1] 1 (by norm_num [spawnRun, spawnEnemy])

end GNinja

